import Mathlib

/-!
Verification development for the on-disk B+tree key-value store
(src/src/btree.rs).  The B+tree engine (insert, search, delete, merge,
borrow_if_needed, occupancy predicates) is translated directly from
src/src/btree.rs.  The collaborating components that are not part of src/
(the node model with its split primitive, the pager, the root WAL and the
page codec) are modelled from the specification, as marked in their doc
comments.

Modelling conventions:
* A Key is a fixed 16-byte value compared in lexicographic (unsigned byte)
  order; this order coincides with the numeric order of the 128-bit
  big-endian integer the bytes denote, so keys are modelled as Nat.
* Pages and page offsets: the page codec is the identity on nodes (spec
  section 4.1: encode then decode is the identity) and the tree file is a
  list of nodes; an offset is an index into that list (offsets in the file
  are always multiples of the fixed page size, spec section 3).
* Rust recursion over on-disk children is not structurally decreasing, so
  the recursive engine functions take explicit fuel; exhausting fuel
  produces the distinguished error Fuel, a modelling artifact.
* Rust panics (out-of-bounds Vec::remove / Vec::insert / index assignment)
  are modelled by the distinguished error Panic.
* Every pager write and every WAL root switch is recorded in a ghost event
  trace, used to state the copy-on-write and single-commit claims.
-/

namespace BTreeSpec

/-- A fixed 16-byte key (spec section 3); lexicographic byte order coincides
with numeric order of the corresponding natural number below 2 ^ 128, so keys
are modelled as naturals. -/
abbrev Key := Nat

/-- Modelled from the spec: KeyValuePair (node_type.rs is not under src/).
Spec section 3: a pair of a Key and a UTF-8 string value, ordered by Key. -/
structure KeyValuePair where
  key : Key
  value : String
  deriving DecidableEq, Repr

/-- Modelled from the spec: comparison of key-value pairs (node_type.rs is not
under src/).  Spec section 3: KeyValuePair is ordered by Key. -/
def KeyValuePair.cmp (a b : KeyValuePair) : Ordering :=
  compare a.key b.key

/-- Modelled from the spec: NodeType (node_type.rs is not under src/).
Spec section 3: an internal node is an ordered sequence of keys plus an
ordered sequence of child offsets; a leaf is an ordered sequence of pairs;
Unexpected is the error-state sentinel. -/
inductive NodeType where
  | Internal (children : List Nat) (keys : List Key)
  | Leaf (pairs : List KeyValuePair)
  | Unexpected
  deriving DecidableEq, Repr

/-- Modelled from the spec: Node (node.rs is not under src/).  Spec section 3:
a node carries its variant, an is_root flag and an optional parent offset. -/
structure Node where
  node_type : NodeType
  is_root : Bool
  parent_offset : Option Nat
  deriving DecidableEq, Repr

/-- The error kinds of the engine (error.rs is not under src/; the kinds and
their uses are those of btree.rs and spec section 7).  Panic models a Rust
panic from an out-of-bounds vector operation; Fuel is a modelling artifact
signalling exhaustion of the explicit recursion bound. -/
inductive Error where
  | KeyNotFound
  | UnexpectedError
  | Panic
  | Fuel
  deriving DecidableEq, Repr

/-- Ghost trace events: one per pager write and per WAL root switch. -/
inductive Ev where
  | appended (o : Nat)
  | overwrote (o : Nat)
  | setRoot (o : Nat)
  deriving DecidableEq, Repr

/-- The mutable store: the tree file (a list of pages, one node per page,
indexed by offset), the WAL root pointer, and the ghost event trace. -/
structure St where
  pages : List Node
  root : Option Nat
  events : List Ev
  deriving DecidableEq, Repr

/-- State-and-error monad: Rust side effects on the pager and WAL persist
even when an operation returns an error, so errors carry the state. -/
def M (α : Type) : Type :=
  St → Except Error α × St

instance : Monad M where
  pure a := fun s => (Except.ok a, s)
  bind x f := fun s =>
    match x s with
    | (Except.ok a, s') => f a s'
    | (Except.error e, s') => (Except.error e, s')

/-- Lift a pure fallible computation into the monad. -/
def liftE (e : Except Error α) : M α :=
  fun s => (e, s)

/-- Raise an error. -/
def throwE (e : Error) : M α :=
  fun s => (Except.error e, s)

/-- Rust Option::ok_or followed by the question-mark operator. -/
def okOr (x : Option α) (e : Error) : M α :=
  match x with
  | some a => fun s => (Except.ok a, s)
  | none => throwE e

/-- Modelled from the spec: Pager::get_page (pager.rs is not under src/).
Spec section 4.2: reads the page at the given offset; fails on a missing
page. -/
def get_page (o : Nat) : M Node :=
  fun s =>
    match s.pages.get? o with
    | some n => (Except.ok n, s)
    | none => (Except.error Error.UnexpectedError, s)

/-- Modelled from the spec: Pager::write_page (pager.rs is not under src/).
Spec section 4.2: appends the page at the current end of file and returns the
offset at which it was written; offsets are strictly increasing. -/
def write_page (n : Node) : M Nat :=
  fun s =>
    (Except.ok s.pages.length,
      { s with
        pages := s.pages ++ [n]
        events := s.events ++ [Ev.appended s.pages.length] })

/-- Modelled from the spec: Pager::write_page_at_offset (pager.rs is not under
src/).  Spec section 4.2: overwrites the page at the given offset. -/
def write_page_at_offset (n : Node) (o : Nat) : M Unit :=
  fun s =>
    if o < s.pages.length then
      (Except.ok (),
        { s with
          pages := s.pages.set o n
          events := s.events ++ [Ev.overwrote o] })
    else (Except.error Error.UnexpectedError, s)

/-- Modelled from the spec: Wal::get_root (wal.rs is not under src/).
Spec section 4.3: returns the most recently committed root offset; fails when
uninitialised. -/
def get_root : M Nat :=
  fun s =>
    match s.root with
    | some r => (Except.ok r, s)
    | none => (Except.error Error.UnexpectedError, s)

/-- Modelled from the spec: Wal::set_root (wal.rs is not under src/).
Spec section 4.3: atomically records the new root offset; the commit point of
every mutating operation. -/
def set_root (o : Nat) : M Unit :=
  fun s =>
    (Except.ok (),
      { s with
        root := some o
        events := s.events ++ [Ev.setRoot o] })

/-- The probe loop of the Rust standard library slice binary search: while
more than one candidate remains, probe the element at base plus half the
window and keep the upper half of the window unless the probe compared
greater than the target.  The first argument is an iteration bound, a
modelling artifact standing in for the termination of the Rust while loop:
the window size strictly shrinks on every pass, so any bound of at least the
initial size makes the bound irrelevant (binary_search_by passes the initial
size). -/
def bsLoop (f : α → Ordering) (xs : List α) (dflt : α) : Nat → Nat → Nat → Nat
  | 0, base, _ => base
  | n + 1, base, size =>
    if 1 < size then
      let half := size / 2
      bsLoop f xs dflt n
        (if f (xs.getD (base + half) dflt) = Ordering.gt then base else base + half)
        (size - half)
    else base

/-- Rust slice::binary_search_by (with f comparing an element against the
target): Ok with the index of an element that compared equal, or Err with the
insertion point. -/
def binary_search_by (f : α → Ordering) (xs : List α) : Except Nat Nat :=
  match xs with
  | [] => Except.error 0
  | x :: _ =>
    let base := bsLoop f xs x xs.length 0 xs.length
    match f (xs.getD base x) with
    | Ordering.eq => Except.ok base
    | Ordering.lt => Except.error (base + 1)
    | Ordering.gt => Except.error base

/-- Result::unwrap_or_else with the identity, as applied to binary-search
results throughout btree.rs: the found index on a hit, the insertion point on
a miss. -/
def unwrapIdx : Except Nat Nat → Nat
  | Except.ok i => i
  | Except.error i => i

/-- Rust Vec::insert: shifts the suffix right; panics when the index exceeds
the length. -/
def vecInsert (xs : List α) (i : Nat) (a : α) : Except Error (List α) :=
  if i ≤ xs.length then Except.ok (xs.take i ++ a :: xs.drop i)
  else Except.error Error.Panic

/-- Rust Vec::remove: returns the removed element and shifts the suffix left;
panics when the index is out of bounds. -/
def vecRemove (xs : List α) (i : Nat) : Except Error (α × List α) :=
  if h : i < xs.length then
    Except.ok (xs.get ⟨i, h⟩, xs.take i ++ xs.drop (i + 1))
  else Except.error Error.Panic

/-- Rust slice index assignment (xs[i] = a): panics when out of bounds. -/
def vecSet (xs : List α) (i : Nat) (a : α) : Except Error (List α) :=
  if i < xs.length then Except.ok (xs.set i a)
  else Except.error Error.Panic

/-- BTree::is_node_full, src/src/btree.rs lines 85-91: a leaf is full at
exactly 2b pairs, an internal node at exactly 2b-1 keys. -/
def is_node_full (b : Nat) (node : Node) : Except Error Bool :=
  match node.node_type with
  | NodeType.Leaf pairs => Except.ok (pairs.length == 2 * b)
  | NodeType.Internal _ keys => Except.ok (keys.length == 2 * b - 1)
  | NodeType.Unexpected => Except.error Error.UnexpectedError

/-- BTree::is_node_underflow, src/src/btree.rs lines 93-100: a non-root node
underflows below b-1 keys or pairs; a root never underflows. -/
def is_node_underflow (b : Nat) (node : Node) : Except Error Bool :=
  match node.node_type with
  | NodeType.Leaf pairs => Except.ok (decide (pairs.length < b - 1) && !node.is_root)
  | NodeType.Internal _ keys => Except.ok (decide (keys.length < b - 1) && !node.is_root)
  | NodeType.Unexpected => Except.error Error.UnexpectedError

/-- Modelled from the spec: Node::split (node.rs is not under src/).
Spec section 4.4: splits at index b.  For a leaf, pairs [0, b) remain, pairs
[b, 2b) move to the new sibling, and the median is a copy of the key of the
first pair of the sibling.  For an internal node, keys [0, b-1) remain, the
key at b-1 is promoted as the median, keys [b, 2b-1) and children [b, 2b)
move to the sibling.  The is_root flag of the split node is cleared and the
sibling inherits the parent offset.  Returns (median, node after the split,
sibling). -/
def splitNode (b : Nat) (node : Node) : Except Error (Key × Node × Node) :=
  match node.node_type with
  | NodeType.Leaf pairs =>
    match h : pairs.drop b with
    | [] => Except.error Error.UnexpectedError
    | rp :: _ =>
      Except.ok (rp.key,
        { node with node_type := NodeType.Leaf (pairs.take b), is_root := false },
        { node_type := NodeType.Leaf (pairs.drop b)
          is_root := false
          parent_offset := node.parent_offset })
  | NodeType.Internal children keys =>
    match keys.get? (b - 1) with
    | none => Except.error Error.UnexpectedError
    | some median =>
      Except.ok (median,
        { node with
          node_type := NodeType.Internal (children.take b) (keys.take (b - 1))
          is_root := false },
        { node_type := NodeType.Internal (children.drop b) (keys.drop b)
          is_root := false
          parent_offset := node.parent_offset })
  | NodeType.Unexpected => Except.error Error.UnexpectedError

/-- BTree::merge, src/src/btree.rs lines 350-382: concatenates two sibling
nodes of the same variant; the result keeps is_root and parent_offset of the
first node.  The key sequences of internal nodes are concatenated directly;
no separator is inserted between them. -/
def merge (first second : Node) : Except Error Node :=
  match first.node_type with
  | NodeType.Leaf first_pairs =>
    match second.node_type with
    | NodeType.Leaf second_pairs =>
      Except.ok
        { node_type := NodeType.Leaf (first_pairs ++ second_pairs)
          is_root := first.is_root
          parent_offset := first.parent_offset }
    | _ => Except.error Error.UnexpectedError
  | NodeType.Internal first_offsets first_keys =>
    match second.node_type with
    | NodeType.Internal second_offsets second_keys =>
      Except.ok
        { node_type := NodeType.Internal (first_offsets ++ second_offsets)
            (first_keys ++ second_keys)
          is_root := first.is_root
          parent_offset := first.parent_offset }
    | _ => Except.error Error.UnexpectedError
  | NodeType.Unexpected => Except.error Error.UnexpectedError

/-- BTree::insert_non_full, src/src/btree.rs lines 142-197: recursively
inserts a key-value pair below a node that is already a fresh copy on the
copy-on-write path.  At a leaf the pair is inserted at the binary-search
position; at an internal node the child at the insertion point of the key is
copied to a fresh page, split first if it is full (the median moving into
this node), and descended into. -/
def insert_non_full (b : Nat) : Nat → Node → Nat → KeyValuePair → M Unit
  | 0, _, _, _ => throwE Error.Fuel
  | fuel + 1, node, node_offset, kv =>
    match node.node_type with
    | NodeType.Leaf pairs => do
      let idx := unwrapIdx (binary_search_by (fun p => KeyValuePair.cmp p kv) pairs)
      let pairs2 ← liftE (vecInsert pairs idx kv)
      write_page_at_offset { node with node_type := NodeType.Leaf pairs2 } node_offset
    | NodeType.Internal children keys => do
      let idx := unwrapIdx (binary_search_by (fun k => compare k kv.key) keys)
      let child_offset ← okOr (children.get? idx) Error.UnexpectedError
      let child ← get_page child_offset
      let new_child_offset ← write_page child
      let children1 ← liftE (vecSet children idx new_child_offset)
      let full ← liftE (is_node_full b child)
      if full then do
        let ms ← liftE (splitNode b child)
        write_page_at_offset ms.2.1 new_child_offset
        let sibling_offset ← write_page ms.2.2
        let children2 ← liftE (vecInsert children1 (idx + 1) sibling_offset)
        let keys2 ← liftE (vecInsert keys idx ms.1)
        write_page_at_offset
          { node with node_type := NodeType.Internal children2 keys2 } node_offset
        if kv.key ≤ ms.1 then insert_non_full b fuel ms.2.1 new_child_offset kv
        else insert_non_full b fuel ms.2.2 sibling_offset kv
      else do
        write_page_at_offset
          { node with node_type := NodeType.Internal children1 keys } node_offset
        insert_non_full b fuel child new_child_offset kv
    | NodeType.Unexpected => throwE Error.UnexpectedError

/-- BTree::insert, src/src/btree.rs lines 103-137: loads the committed root;
if it is full, allocates a placeholder offset for a new root, splits the old
root (re-parented to the placeholder) and overwrites the placeholder with the
new two-child root; otherwise appends a fresh copy of the root.  Then inserts
below the fresh root and commits it with a single set_root. -/
def insert (b fuel : Nat) (kv : KeyValuePair) : M Unit := do
  let root_offset ← get_root
  let root ← get_page root_offset
  let full ← liftE (is_node_full b root)
  let nr ←
    if full then do
      let new_root0 : Node :=
        { node_type := NodeType.Internal [] [], is_root := true, parent_offset := none }
      let new_root_offset ← write_page new_root0
      let root1 : Node :=
        { root with parent_offset := some new_root_offset, is_root := false }
      let ms ← liftE (splitNode b root1)
      let old_root_offset ← write_page ms.2.1
      let sibling_offset ← write_page ms.2.2
      let new_root : Node :=
        { node_type := NodeType.Internal [old_root_offset, sibling_offset] [ms.1]
          is_root := true
          parent_offset := none }
      write_page_at_offset new_root new_root_offset
      pure (new_root, new_root_offset)
    else do
      let new_root_offset ← write_page root
      pure (root, new_root_offset)
  insert_non_full b fuel nr.1 nr.2 kv
  set_root nr.2

/-- BTree::search_node, src/src/btree.rs lines 208-230: at an internal node
descends into the child at the insertion point of the key among the
separators; at a leaf binary-searches the pairs by key, returning the pair on
a hit and KeyNotFound on a miss. -/
def search_node : Nat → Node → Key → M KeyValuePair
  | 0, _, _ => throwE Error.Fuel
  | fuel + 1, node, key =>
    match node.node_type with
    | NodeType.Internal children keys => do
      let idx := unwrapIdx (binary_search_by (fun k => compare k key) keys)
      let child_offset ← okOr (children.get? idx) Error.UnexpectedError
      let child ← get_page child_offset
      search_node fuel child key
    | NodeType.Leaf pairs =>
      match binary_search_by (fun p => compare p.key key) pairs with
      | Except.ok idx => okOr (pairs.get? idx) Error.UnexpectedError
      | Except.error _ => throwE Error.KeyNotFound
    | NodeType.Unexpected => throwE Error.UnexpectedError

/-- BTree::search, src/src/btree.rs lines 200-205: read-only lookup from the
committed root. -/
def search (fuel : Nat) (key : Key) : M KeyValuePair := do
  let root_offset ← get_root
  let root ← get_page root_offset
  search_node fuel root key

/-- BTree::borrow_if_needed, src/src/btree.rs lines 295-344: if the node
underflows, fetches its parent, picks the sibling at idx - 1 (or idx + 1 when
idx = 0) where idx is the binary-search insertion point of the deleted key
among the parent separators, merges node with sibling into a freshly appended
node, removes the two old child slots, and either replaces the root by the
merged node (when the parent is the root and is left with no children) or
removes the key at idx, inserts the merged child offset, rewrites the parent
in place and recurses up the tree. -/
def borrow_if_needed (b : Nat) : Nat → Node → Key → M Unit
  | 0, _, _ => throwE Error.Fuel
  | fuel + 1, node, key => do
    let uf ← liftE (is_node_underflow b node)
    if uf then do
      let parent_offset ← okOr node.parent_offset Error.UnexpectedError
      let parent0 ← get_page parent_offset
      match parent0.node_type with
      | NodeType.Internal children keys => do
        let idx := unwrapIdx (binary_search_by (fun k => compare k key) keys)
        let sibling_idx := if idx > 0 then idx - 1 else idx + 1
        let sibling_offset ← okOr (children.get? sibling_idx) Error.UnexpectedError
        let sibling ← get_page sibling_offset
        let merged_node ← liftE (merge node sibling)
        let merged_node_offset ← write_page merged_node
        let merged_node_idx := min idx sibling_idx
        let c1 ← liftE (vecRemove children merged_node_idx)
        let c2 ← liftE (vecRemove c1.2 merged_node_idx)
        if parent0.is_root && c2.2.isEmpty then
          set_root merged_node_offset
        else do
          let k1 ← liftE (vecRemove keys idx)
          let children3 ← liftE (vecInsert c2.2 merged_node_idx merged_node_offset)
          let parent1 : Node :=
            { parent0 with node_type := NodeType.Internal children3 k1.2 }
          write_page_at_offset parent1 parent_offset
          borrow_if_needed b fuel parent1 key
      | _ => throwE Error.UnexpectedError
    else pure ()

/-- BTree::delete_key_from_subtree, src/src/btree.rs lines 247-289: descends
copy-on-write (each visited child re-appended with its parent_offset fixed to
the fresh parent offset, the parent rewritten in place); at the leaf removes
the pair at the binary-search index (KeyNotFound on a miss), rewrites the
leaf in place and triggers borrow_if_needed on it. -/
def delete_key_from_subtree (b : Nat) : Nat → Key → Node → Nat → M Unit
  | 0, _, _, _ => throwE Error.Fuel
  | fuel + 1, key, node, node_offset =>
    match node.node_type with
    | NodeType.Leaf pairs => do
      let key_idx ←
        match binary_search_by (fun p => compare p.key key) pairs with
        | Except.ok i => pure i
        | Except.error _ => throwE Error.KeyNotFound
      let pr ← liftE (vecRemove pairs key_idx)
      let node2 : Node := { node with node_type := NodeType.Leaf pr.2 }
      write_page_at_offset node2 node_offset
      borrow_if_needed b fuel node2 key
    | NodeType.Internal children keys => do
      let node_idx := unwrapIdx (binary_search_by (fun k => compare k key) keys)
      let child_offset ← okOr (children.get? node_idx) Error.UnexpectedError
      let child0 ← get_page child_offset
      let child1 : Node := { child0 with parent_offset := some node_offset }
      let new_child_offset ← write_page child1
      let children2 ← liftE (vecSet children node_idx new_child_offset)
      write_page_at_offset
        { node with node_type := NodeType.Internal children2 keys } node_offset
      delete_key_from_subtree b fuel key child1 new_child_offset
    | NodeType.Unexpected => throwE Error.UnexpectedError

/-- BTree::delete, src/src/btree.rs lines 233-242: shadows the committed root
to a fresh page, deletes below it, and commits the fresh root offset. -/
def delete (b fuel : Nat) (key : Key) : M Unit := do
  let root_offset ← get_root
  let new_root ← get_page root_offset
  let new_root_offset ← write_page new_root
  delete_key_from_subtree b fuel key new_root new_root_offset
  set_root new_root_offset

/-- The store produced by BTreeBuilder::build (src/src/btree.rs lines 50-70):
an empty root leaf written at offset 0, committed in the WAL.  The ghost
event trace starts empty. -/
def initSt : St :=
  { pages := [{ node_type := NodeType.Leaf [], is_root := true, parent_offset := none }]
    root := some 0
    events := [] }

/-- One public operation of the store. -/
inductive Op where
  | ins (k : Key) (v : String)
  | del (k : Key)
  deriving DecidableEq, Repr

/-- Run one operation. -/
def applyOp (b fuel : Nat) (op : Op) : M Unit :=
  match op with
  | Op.ins k v => insert b fuel { key := k, value := v }
  | Op.del k => delete b fuel k

/-- Run a sequence of operations, collecting each result alongside the final
state.  The ghost event trace is cleared before every operation (events never
influence behaviour), so that in the final state the trace of the last
operation can be inspected in isolation. -/
def runTrace (b fuel : Nat) : List Op → St → List (Except Error Unit) × St
  | [], s => ([], s)
  | op :: ops, s =>
    let r := applyOp b fuel op { s with events := [] }
    let rest := runTrace b fuel ops r.2
    (r.1 :: rest.1, rest.2)

/-- Number of set_root events in a trace. -/
def srCount : List Ev → Nat
  | [] => 0
  | Ev.setRoot _ :: es => srCount es + 1
  | _ :: es => srCount es

/-- Offsets appended by write_page so far, accumulated over a trace. -/
def seenAcc (seen : List Nat) : List Ev → List Nat
  | [] => seen
  | Ev.appended o :: es => seenAcc (o :: seen) es
  | _ :: es => seenAcc seen es

/-- The copy-on-write discipline on a trace: every offset overwritten in
place was previously appended within the same trace. -/
def cowOK (seen : List Nat) : List Ev → Bool
  | [] => true
  | Ev.appended o :: es => cowOK (o :: seen) es
  | Ev.overwrote o :: es => seen.contains o && cowOK seen es
  | Ev.setRoot _ :: es => cowOK seen es

/-- Child offsets of a node (empty for leaves). -/
def nodeChildren (n : Node) : List Nat :=
  match n.node_type with
  | NodeType.Internal children _ => children
  | _ => []

/-- Separator keys of an internal node (empty for leaves). -/
def nodeKeys (n : Node) : List Key :=
  match n.node_type with
  | NodeType.Internal _ keys => keys
  | _ => []

/-- Key-value pairs of a leaf (empty for internal nodes). -/
def nodePairs (n : Node) : List KeyValuePair :=
  match n.node_type with
  | NodeType.Leaf pairs => pairs
  | _ => []

/-- Offsets appended by write_page over the events of a state. -/
def SEEN (s : St) : List Nat :=
  seenAcc [] s.events

/-- The event part of the per-operation invariant, for an operation started
when the file had length L: the trace satisfies the copy-on-write discipline,
the file only grew, and every offset appended by the operation lies in
[L, file length). -/
def EvOK (L : Nat) (s : St) : Prop :=
  cowOK [] s.events = true ∧ L ≤ s.pages.length ∧
    ∀ o ∈ SEEN s, L ≤ o ∧ o < s.pages.length

/-- A node whose upward link is usable by the delete path: it is a root, or
it has no parent, or its parent offset was appended by this operation. -/
def NodeRef (s : St) (n : Node) : Prop :=
  n.is_root = true ∨ n.parent_offset = none ∨
    ∃ q, n.parent_offset = some q ∧ q ∈ SEEN s

/-- Content part of the delete-path invariant: every page appended by this
operation exists and has a usable upward link. -/
def PagesOK (s : St) : Prop :=
  ∀ o ∈ SEEN s, ∃ n, s.pages.get? o = some n ∧ NodeRef s n

/-- The full per-operation invariant of the delete path. -/
def DelOK (L : Nat) (s : St) : Prop :=
  EvOK L s ∧ PagesOK s

/-- Relation between the state at the start of (a part of) an operation and
a later state: events only accumulate, pages below the starting length L are
untouched, and the file only grows. -/
def Step (L : Nat) (s s' : St) : Prop :=
  (∃ es, s'.events = s.events ++ es) ∧
    (∀ o, o < L → s'.pages.get? o = s.pages.get? o) ∧
    s.pages.length ≤ s'.pages.length

/-- The descent path the engine follows for a key, as selected by both
BTree::delete_key_from_subtree and BTree::search_node: at an internal node
the child at the binary-search insertion point of the key among the
separators exists in the given page file and the path continues below its
node; the path ends at a leaf.  Only node_type matters, since the descent
rewrites parent_offset fields on the way down. -/
def pathTo (pages : List Node) (key : Key) : Nat → NodeType → Prop
  | 0, _ => False
  | fuel + 1, nt =>
    match nt with
    | NodeType.Leaf _ => True
    | NodeType.Internal children keys =>
      ∃ co child,
        children.get? (unwrapIdx (binary_search_by (fun k => compare k key) keys))
          = some co ∧
        pages.get? co = some child ∧
        pathTo pages key fuel child.node_type
    | NodeType.Unexpected => False

/-- The key misses a node: if the node is a leaf, no pair of it carries the
key. -/
def leafMiss (key : Key) : NodeType → Prop
  | NodeType.Leaf pairs => key ∉ pairs.map KeyValuePair.key
  | _ => True

/-- The key is absent from the tree: no leaf page of the file carries it. -/
def keyAbsent (pages : List Node) (key : Key) : Prop :=
  ∀ n ∈ pages, leafMiss key n.node_type

/-- A committed two-level store: root Internal [1, 2] [10] over the leaves
[(5, x)] at offset 1 and [(10, y)] at offset 2; key 7 is absent from it. -/
def twoLevelSt : St :=
  { pages :=
      [{ node_type := NodeType.Internal [1, 2] [10], is_root := true,
         parent_offset := none },
       { node_type := NodeType.Leaf [{ key := 5, value := "x" }],
         is_root := false, parent_offset := some 0 },
       { node_type := NodeType.Leaf [{ key := 10, value := "y" }],
         is_root := false, parent_offset := some 0 }]
    root := some 0
    events := [] }

/-- The duplicate-key scenario: two inserts with the same key (b = 2). -/
def dupOps : List Op :=
  [Op.ins 5 "a", Op.ins 5 "b"]

/-- A scenario driving delete into the root-collapse branch of
borrow_if_needed (b = 2): five ascending inserts build a two-level tree,
delete 10 then delete 20 empty the left leaf. -/
def collapseOps : List Op :=
  [Op.ins 10 "a", Op.ins 20 "b", Op.ins 30 "c", Op.ins 40 "d", Op.ins 50 "e",
   Op.del 10, Op.del 20]

/-- The prefix of collapseOps before its final delete. -/
def collapsePre : List Op :=
  [Op.ins 10 "a", Op.ins 20 "b", Op.ins 30 "c", Op.ins 40 "d", Op.ins 50 "e",
   Op.del 10]

/-- The state reached by collapsePre, with the ghost trace cleared so that
the events of the next operation can be inspected in isolation. -/
def collapseSt : St :=
  { (runTrace 2 20 collapsePre initSt).2 with events := [] }

/-- Ten ascending inserts with b = 3, building a root with three leaf
children below separators [40, 70]. -/
def tenInserts : List Op :=
  [Op.ins 10 "a", Op.ins 20 "b", Op.ins 30 "c", Op.ins 40 "d", Op.ins 50 "e",
   Op.ins 60 "f", Op.ins 70 "g", Op.ins 80 "h", Op.ins 90 "i", Op.ins 100 "j"]

/-- Reachable preparation for the out-of-bounds keys.remove in
borrow_if_needed (b = 3): the ten inserts, then shrink the rightmost leaf to
one pair. -/
def panicPre : List Op :=
  [Op.ins 10 "a", Op.ins 20 "b", Op.ins 30 "c", Op.ins 40 "d", Op.ins 50 "e",
   Op.ins 60 "f", Op.ins 70 "g", Op.ins 80 "h", Op.ins 90 "i", Op.ins 100 "j",
   Op.del 100, Op.del 90]

/-- Reachable preparation for the wrong-separator repair (b = 3): the ten
inserts, then shrink the middle leaf to two pairs; deleting 60 next
underflows it at parent index 1. -/
def sepPre : List Op :=
  [Op.ins 10 "a", Op.ins 20 "b", Op.ins 30 "c", Op.ins 40 "d", Op.ins 50 "e",
   Op.ins 60 "f", Op.ins 70 "g", Op.ins 80 "h", Op.ins 90 "i", Op.ins 100 "j",
   Op.del 50]

/-- Intermediate state literal, pinned by the step lemma below that
recomputes it from its predecessor. -/
def c3s1 : St :=
  { pages := [{ node_type := NodeType.Leaf [], is_root := true, parent_offset := none },
              { node_type := NodeType.Leaf [{ key := 10, value := "a" }],
                is_root := true,
                parent_offset := none }],
    root := some 1,
    events := [Ev.appended 1, Ev.overwrote 1, Ev.setRoot 1] }

/-- Intermediate state literal, pinned by the step lemma below that
recomputes it from its predecessor. -/
def c3s2 : St :=
  { pages := [{ node_type := NodeType.Leaf [], is_root := true, parent_offset := none },
              { node_type := NodeType.Leaf [{ key := 10, value := "a" }],
                is_root := true,
                parent_offset := none },
              { node_type := NodeType.Leaf [{ key := 10, value := "a" }, { key := 20, value := "b" }],
                is_root := true,
                parent_offset := none }],
    root := some 2,
    events := [Ev.appended 2, Ev.overwrote 2, Ev.setRoot 2] }

/-- Intermediate state literal, pinned by the step lemma below that
recomputes it from its predecessor. -/
def c3s3 : St :=
  { pages := [{ node_type := NodeType.Leaf [], is_root := true, parent_offset := none },
              { node_type := NodeType.Leaf [{ key := 10, value := "a" }],
                is_root := true,
                parent_offset := none },
              { node_type := NodeType.Leaf [{ key := 10, value := "a" }, { key := 20, value := "b" }],
                is_root := true,
                parent_offset := none },
              { node_type := NodeType.Leaf
                               [{ key := 10, value := "a" }, { key := 20, value := "b" }, { key := 30, value := "c" }],
                is_root := true,
                parent_offset := none }],
    root := some 3,
    events := [Ev.appended 3, Ev.overwrote 3, Ev.setRoot 3] }

/-- Intermediate state literal, pinned by the step lemma below that
recomputes it from its predecessor. -/
def c3s4 : St :=
  { pages := [{ node_type := NodeType.Leaf [], is_root := true, parent_offset := none },
              { node_type := NodeType.Leaf [{ key := 10, value := "a" }],
                is_root := true,
                parent_offset := none },
              { node_type := NodeType.Leaf [{ key := 10, value := "a" }, { key := 20, value := "b" }],
                is_root := true,
                parent_offset := none },
              { node_type := NodeType.Leaf
                               [{ key := 10, value := "a" }, { key := 20, value := "b" }, { key := 30, value := "c" }],
                is_root := true,
                parent_offset := none },
              { node_type := NodeType.Leaf
                               [{ key := 10, value := "a" },
                                { key := 20, value := "b" },
                                { key := 30, value := "c" },
                                { key := 40, value := "d" }],
                is_root := true,
                parent_offset := none }],
    root := some 4,
    events := [Ev.appended 4, Ev.overwrote 4, Ev.setRoot 4] }

/-- Intermediate state literal, pinned by the step lemma below that
recomputes it from its predecessor. -/
def c3s5 : St :=
  { pages := [{ node_type := NodeType.Leaf [], is_root := true, parent_offset := none },
              { node_type := NodeType.Leaf [{ key := 10, value := "a" }],
                is_root := true,
                parent_offset := none },
              { node_type := NodeType.Leaf [{ key := 10, value := "a" }, { key := 20, value := "b" }],
                is_root := true,
                parent_offset := none },
              { node_type := NodeType.Leaf
                               [{ key := 10, value := "a" }, { key := 20, value := "b" }, { key := 30, value := "c" }],
                is_root := true,
                parent_offset := none },
              { node_type := NodeType.Leaf
                               [{ key := 10, value := "a" },
                                { key := 20, value := "b" },
                                { key := 30, value := "c" },
                                { key := 40, value := "d" }],
                is_root := true,
                parent_offset := none },
              { node_type := NodeType.Internal [6, 8] [30], is_root := true, parent_offset := none },
              { node_type := NodeType.Leaf [{ key := 10, value := "a" }, { key := 20, value := "b" }],
                is_root := false,
                parent_offset := some 5 },
              { node_type := NodeType.Leaf [{ key := 30, value := "c" }, { key := 40, value := "d" }],
                is_root := false,
                parent_offset := some 5 },
              { node_type := NodeType.Leaf
                               [{ key := 30, value := "c" }, { key := 40, value := "d" }, { key := 50, value := "e" }],
                is_root := false,
                parent_offset := some 5 }],
    root := some 5,
    events := [Ev.appended 5,
               Ev.appended 6,
               Ev.appended 7,
               Ev.overwrote 5,
               Ev.appended 8,
               Ev.overwrote 5,
               Ev.overwrote 8,
               Ev.setRoot 5] }

/-- Intermediate state literal, pinned by the step lemma below that
recomputes it from its predecessor. -/
def c3s6 : St :=
  { pages := [{ node_type := NodeType.Leaf [], is_root := true, parent_offset := none },
              { node_type := NodeType.Leaf [{ key := 10, value := "a" }],
                is_root := true,
                parent_offset := none },
              { node_type := NodeType.Leaf [{ key := 10, value := "a" }, { key := 20, value := "b" }],
                is_root := true,
                parent_offset := none },
              { node_type := NodeType.Leaf
                               [{ key := 10, value := "a" }, { key := 20, value := "b" }, { key := 30, value := "c" }],
                is_root := true,
                parent_offset := none },
              { node_type := NodeType.Leaf
                               [{ key := 10, value := "a" },
                                { key := 20, value := "b" },
                                { key := 30, value := "c" },
                                { key := 40, value := "d" }],
                is_root := true,
                parent_offset := none },
              { node_type := NodeType.Internal [6, 8] [30], is_root := true, parent_offset := none },
              { node_type := NodeType.Leaf [{ key := 10, value := "a" }, { key := 20, value := "b" }],
                is_root := false,
                parent_offset := some 5 },
              { node_type := NodeType.Leaf [{ key := 30, value := "c" }, { key := 40, value := "d" }],
                is_root := false,
                parent_offset := some 5 },
              { node_type := NodeType.Leaf
                               [{ key := 30, value := "c" }, { key := 40, value := "d" }, { key := 50, value := "e" }],
                is_root := false,
                parent_offset := some 5 },
              { node_type := NodeType.Internal [10, 8] [30], is_root := true, parent_offset := none },
              { node_type := NodeType.Leaf [{ key := 20, value := "b" }],
                is_root := false,
                parent_offset := some 9 }],
    root := some 9,
    events := [Ev.appended 9,
               Ev.appended 10,
               Ev.overwrote 9,
               Ev.overwrote 10,
               Ev.setRoot 9] }

/-- Intermediate state literal, pinned by the step lemma below that
recomputes it from its predecessor. -/
def c3s7 : St :=
  { pages := [{ node_type := NodeType.Leaf [], is_root := true, parent_offset := none },
              { node_type := NodeType.Leaf [{ key := 10, value := "a" }],
                is_root := true,
                parent_offset := none },
              { node_type := NodeType.Leaf [{ key := 10, value := "a" }, { key := 20, value := "b" }],
                is_root := true,
                parent_offset := none },
              { node_type := NodeType.Leaf
                               [{ key := 10, value := "a" }, { key := 20, value := "b" }, { key := 30, value := "c" }],
                is_root := true,
                parent_offset := none },
              { node_type := NodeType.Leaf
                               [{ key := 10, value := "a" },
                                { key := 20, value := "b" },
                                { key := 30, value := "c" },
                                { key := 40, value := "d" }],
                is_root := true,
                parent_offset := none },
              { node_type := NodeType.Internal [6, 8] [30], is_root := true, parent_offset := none },
              { node_type := NodeType.Leaf [{ key := 10, value := "a" }, { key := 20, value := "b" }],
                is_root := false,
                parent_offset := some 5 },
              { node_type := NodeType.Leaf [{ key := 30, value := "c" }, { key := 40, value := "d" }],
                is_root := false,
                parent_offset := some 5 },
              { node_type := NodeType.Leaf
                               [{ key := 30, value := "c" }, { key := 40, value := "d" }, { key := 50, value := "e" }],
                is_root := false,
                parent_offset := some 5 },
              { node_type := NodeType.Internal [10, 8] [30], is_root := true, parent_offset := none },
              { node_type := NodeType.Leaf [{ key := 20, value := "b" }],
                is_root := false,
                parent_offset := some 9 },
              { node_type := NodeType.Internal [12, 8] [30], is_root := true, parent_offset := none },
              { node_type := NodeType.Leaf [], is_root := false, parent_offset := some 11 },
              { node_type := NodeType.Leaf
                               [{ key := 30, value := "c" }, { key := 40, value := "d" }, { key := 50, value := "e" }],
                is_root := false,
                parent_offset := some 11 }],
    root := some 11,
    events := [Ev.appended 11,
               Ev.appended 12,
               Ev.overwrote 11,
               Ev.overwrote 12,
               Ev.appended 13,
               Ev.setRoot 13,
               Ev.setRoot 11] }

/-- Intermediate state literal, pinned by the step lemma below that
recomputes it from its predecessor. -/
def ps1 : St :=
  { pages := [{ node_type := NodeType.Leaf [], is_root := true, parent_offset := none },
              { node_type := NodeType.Leaf [{ key := 10, value := "a" }],
                is_root := true,
                parent_offset := none }],
    root := some 1,
    events := [Ev.appended 1, Ev.overwrote 1, Ev.setRoot 1] }

/-- Intermediate state literal, pinned by the step lemma below that
recomputes it from its predecessor. -/
def ps2 : St :=
  { pages := [{ node_type := NodeType.Leaf [], is_root := true, parent_offset := none },
              { node_type := NodeType.Leaf [{ key := 10, value := "a" }],
                is_root := true,
                parent_offset := none },
              { node_type := NodeType.Leaf [{ key := 10, value := "a" }, { key := 20, value := "b" }],
                is_root := true,
                parent_offset := none }],
    root := some 2,
    events := [Ev.appended 2, Ev.overwrote 2, Ev.setRoot 2] }

/-- Intermediate state literal, pinned by the step lemma below that
recomputes it from its predecessor. -/
def ps3 : St :=
  { pages := [{ node_type := NodeType.Leaf [], is_root := true, parent_offset := none },
              { node_type := NodeType.Leaf [{ key := 10, value := "a" }],
                is_root := true,
                parent_offset := none },
              { node_type := NodeType.Leaf [{ key := 10, value := "a" }, { key := 20, value := "b" }],
                is_root := true,
                parent_offset := none },
              { node_type := NodeType.Leaf
                               [{ key := 10, value := "a" }, { key := 20, value := "b" }, { key := 30, value := "c" }],
                is_root := true,
                parent_offset := none }],
    root := some 3,
    events := [Ev.appended 3, Ev.overwrote 3, Ev.setRoot 3] }

/-- Intermediate state literal, pinned by the step lemma below that
recomputes it from its predecessor. -/
def ps4 : St :=
  { pages := [{ node_type := NodeType.Leaf [], is_root := true, parent_offset := none },
              { node_type := NodeType.Leaf [{ key := 10, value := "a" }],
                is_root := true,
                parent_offset := none },
              { node_type := NodeType.Leaf [{ key := 10, value := "a" }, { key := 20, value := "b" }],
                is_root := true,
                parent_offset := none },
              { node_type := NodeType.Leaf
                               [{ key := 10, value := "a" }, { key := 20, value := "b" }, { key := 30, value := "c" }],
                is_root := true,
                parent_offset := none },
              { node_type := NodeType.Leaf
                               [{ key := 10, value := "a" },
                                { key := 20, value := "b" },
                                { key := 30, value := "c" },
                                { key := 40, value := "d" }],
                is_root := true,
                parent_offset := none }],
    root := some 4,
    events := [Ev.appended 4, Ev.overwrote 4, Ev.setRoot 4] }

/-- Intermediate state literal, pinned by the step lemma below that
recomputes it from its predecessor. -/
def ps5 : St :=
  { pages := [{ node_type := NodeType.Leaf [], is_root := true, parent_offset := none },
              { node_type := NodeType.Leaf [{ key := 10, value := "a" }],
                is_root := true,
                parent_offset := none },
              { node_type := NodeType.Leaf [{ key := 10, value := "a" }, { key := 20, value := "b" }],
                is_root := true,
                parent_offset := none },
              { node_type := NodeType.Leaf
                               [{ key := 10, value := "a" }, { key := 20, value := "b" }, { key := 30, value := "c" }],
                is_root := true,
                parent_offset := none },
              { node_type := NodeType.Leaf
                               [{ key := 10, value := "a" },
                                { key := 20, value := "b" },
                                { key := 30, value := "c" },
                                { key := 40, value := "d" }],
                is_root := true,
                parent_offset := none },
              { node_type := NodeType.Leaf
                               [{ key := 10, value := "a" },
                                { key := 20, value := "b" },
                                { key := 30, value := "c" },
                                { key := 40, value := "d" },
                                { key := 50, value := "e" }],
                is_root := true,
                parent_offset := none }],
    root := some 5,
    events := [Ev.appended 5, Ev.overwrote 5, Ev.setRoot 5] }

/-- Intermediate state literal, pinned by the step lemma below that
recomputes it from its predecessor. -/
def ps6 : St :=
  { pages := [{ node_type := NodeType.Leaf [], is_root := true, parent_offset := none },
              { node_type := NodeType.Leaf [{ key := 10, value := "a" }],
                is_root := true,
                parent_offset := none },
              { node_type := NodeType.Leaf [{ key := 10, value := "a" }, { key := 20, value := "b" }],
                is_root := true,
                parent_offset := none },
              { node_type := NodeType.Leaf
                               [{ key := 10, value := "a" }, { key := 20, value := "b" }, { key := 30, value := "c" }],
                is_root := true,
                parent_offset := none },
              { node_type := NodeType.Leaf
                               [{ key := 10, value := "a" },
                                { key := 20, value := "b" },
                                { key := 30, value := "c" },
                                { key := 40, value := "d" }],
                is_root := true,
                parent_offset := none },
              { node_type := NodeType.Leaf
                               [{ key := 10, value := "a" },
                                { key := 20, value := "b" },
                                { key := 30, value := "c" },
                                { key := 40, value := "d" },
                                { key := 50, value := "e" }],
                is_root := true,
                parent_offset := none },
              { node_type := NodeType.Leaf
                               [{ key := 10, value := "a" },
                                { key := 20, value := "b" },
                                { key := 30, value := "c" },
                                { key := 40, value := "d" },
                                { key := 50, value := "e" },
                                { key := 60, value := "f" }],
                is_root := true,
                parent_offset := none }],
    root := some 6,
    events := [Ev.appended 6, Ev.overwrote 6, Ev.setRoot 6] }

/-- Intermediate state literal, pinned by the step lemma below that
recomputes it from its predecessor. -/
def ps7 : St :=
  { pages := [{ node_type := NodeType.Leaf [], is_root := true, parent_offset := none },
              { node_type := NodeType.Leaf [{ key := 10, value := "a" }],
                is_root := true,
                parent_offset := none },
              { node_type := NodeType.Leaf [{ key := 10, value := "a" }, { key := 20, value := "b" }],
                is_root := true,
                parent_offset := none },
              { node_type := NodeType.Leaf
                               [{ key := 10, value := "a" }, { key := 20, value := "b" }, { key := 30, value := "c" }],
                is_root := true,
                parent_offset := none },
              { node_type := NodeType.Leaf
                               [{ key := 10, value := "a" },
                                { key := 20, value := "b" },
                                { key := 30, value := "c" },
                                { key := 40, value := "d" }],
                is_root := true,
                parent_offset := none },
              { node_type := NodeType.Leaf
                               [{ key := 10, value := "a" },
                                { key := 20, value := "b" },
                                { key := 30, value := "c" },
                                { key := 40, value := "d" },
                                { key := 50, value := "e" }],
                is_root := true,
                parent_offset := none },
              { node_type := NodeType.Leaf
                               [{ key := 10, value := "a" },
                                { key := 20, value := "b" },
                                { key := 30, value := "c" },
                                { key := 40, value := "d" },
                                { key := 50, value := "e" },
                                { key := 60, value := "f" }],
                is_root := true,
                parent_offset := none },
              { node_type := NodeType.Internal [8, 10] [40], is_root := true, parent_offset := none },
              { node_type := NodeType.Leaf
                               [{ key := 10, value := "a" }, { key := 20, value := "b" }, { key := 30, value := "c" }],
                is_root := false,
                parent_offset := some 7 },
              { node_type := NodeType.Leaf
                               [{ key := 40, value := "d" }, { key := 50, value := "e" }, { key := 60, value := "f" }],
                is_root := false,
                parent_offset := some 7 },
              { node_type := NodeType.Leaf
                               [{ key := 40, value := "d" },
                                { key := 50, value := "e" },
                                { key := 60, value := "f" },
                                { key := 70, value := "g" }],
                is_root := false,
                parent_offset := some 7 }],
    root := some 7,
    events := [Ev.appended 7,
               Ev.appended 8,
               Ev.appended 9,
               Ev.overwrote 7,
               Ev.appended 10,
               Ev.overwrote 7,
               Ev.overwrote 10,
               Ev.setRoot 7] }

/-- Intermediate state literal, pinned by the step lemma below that
recomputes it from its predecessor. -/
def ps8 : St :=
  { pages := [{ node_type := NodeType.Leaf [], is_root := true, parent_offset := none },
              { node_type := NodeType.Leaf [{ key := 10, value := "a" }],
                is_root := true,
                parent_offset := none },
              { node_type := NodeType.Leaf [{ key := 10, value := "a" }, { key := 20, value := "b" }],
                is_root := true,
                parent_offset := none },
              { node_type := NodeType.Leaf
                               [{ key := 10, value := "a" }, { key := 20, value := "b" }, { key := 30, value := "c" }],
                is_root := true,
                parent_offset := none },
              { node_type := NodeType.Leaf
                               [{ key := 10, value := "a" },
                                { key := 20, value := "b" },
                                { key := 30, value := "c" },
                                { key := 40, value := "d" }],
                is_root := true,
                parent_offset := none },
              { node_type := NodeType.Leaf
                               [{ key := 10, value := "a" },
                                { key := 20, value := "b" },
                                { key := 30, value := "c" },
                                { key := 40, value := "d" },
                                { key := 50, value := "e" }],
                is_root := true,
                parent_offset := none },
              { node_type := NodeType.Leaf
                               [{ key := 10, value := "a" },
                                { key := 20, value := "b" },
                                { key := 30, value := "c" },
                                { key := 40, value := "d" },
                                { key := 50, value := "e" },
                                { key := 60, value := "f" }],
                is_root := true,
                parent_offset := none },
              { node_type := NodeType.Internal [8, 10] [40], is_root := true, parent_offset := none },
              { node_type := NodeType.Leaf
                               [{ key := 10, value := "a" }, { key := 20, value := "b" }, { key := 30, value := "c" }],
                is_root := false,
                parent_offset := some 7 },
              { node_type := NodeType.Leaf
                               [{ key := 40, value := "d" }, { key := 50, value := "e" }, { key := 60, value := "f" }],
                is_root := false,
                parent_offset := some 7 },
              { node_type := NodeType.Leaf
                               [{ key := 40, value := "d" },
                                { key := 50, value := "e" },
                                { key := 60, value := "f" },
                                { key := 70, value := "g" }],
                is_root := false,
                parent_offset := some 7 },
              { node_type := NodeType.Internal [8, 12] [40], is_root := true, parent_offset := none },
              { node_type := NodeType.Leaf
                               [{ key := 40, value := "d" },
                                { key := 50, value := "e" },
                                { key := 60, value := "f" },
                                { key := 70, value := "g" },
                                { key := 80, value := "h" }],
                is_root := false,
                parent_offset := some 7 }],
    root := some 11,
    events := [Ev.appended 11,
               Ev.appended 12,
               Ev.overwrote 11,
               Ev.overwrote 12,
               Ev.setRoot 11] }

/-- Intermediate state literal, pinned by the step lemma below that
recomputes it from its predecessor. -/
def ps9 : St :=
  { pages := [{ node_type := NodeType.Leaf [], is_root := true, parent_offset := none },
              { node_type := NodeType.Leaf [{ key := 10, value := "a" }],
                is_root := true,
                parent_offset := none },
              { node_type := NodeType.Leaf [{ key := 10, value := "a" }, { key := 20, value := "b" }],
                is_root := true,
                parent_offset := none },
              { node_type := NodeType.Leaf
                               [{ key := 10, value := "a" }, { key := 20, value := "b" }, { key := 30, value := "c" }],
                is_root := true,
                parent_offset := none },
              { node_type := NodeType.Leaf
                               [{ key := 10, value := "a" },
                                { key := 20, value := "b" },
                                { key := 30, value := "c" },
                                { key := 40, value := "d" }],
                is_root := true,
                parent_offset := none },
              { node_type := NodeType.Leaf
                               [{ key := 10, value := "a" },
                                { key := 20, value := "b" },
                                { key := 30, value := "c" },
                                { key := 40, value := "d" },
                                { key := 50, value := "e" }],
                is_root := true,
                parent_offset := none },
              { node_type := NodeType.Leaf
                               [{ key := 10, value := "a" },
                                { key := 20, value := "b" },
                                { key := 30, value := "c" },
                                { key := 40, value := "d" },
                                { key := 50, value := "e" },
                                { key := 60, value := "f" }],
                is_root := true,
                parent_offset := none },
              { node_type := NodeType.Internal [8, 10] [40], is_root := true, parent_offset := none },
              { node_type := NodeType.Leaf
                               [{ key := 10, value := "a" }, { key := 20, value := "b" }, { key := 30, value := "c" }],
                is_root := false,
                parent_offset := some 7 },
              { node_type := NodeType.Leaf
                               [{ key := 40, value := "d" }, { key := 50, value := "e" }, { key := 60, value := "f" }],
                is_root := false,
                parent_offset := some 7 },
              { node_type := NodeType.Leaf
                               [{ key := 40, value := "d" },
                                { key := 50, value := "e" },
                                { key := 60, value := "f" },
                                { key := 70, value := "g" }],
                is_root := false,
                parent_offset := some 7 },
              { node_type := NodeType.Internal [8, 12] [40], is_root := true, parent_offset := none },
              { node_type := NodeType.Leaf
                               [{ key := 40, value := "d" },
                                { key := 50, value := "e" },
                                { key := 60, value := "f" },
                                { key := 70, value := "g" },
                                { key := 80, value := "h" }],
                is_root := false,
                parent_offset := some 7 },
              { node_type := NodeType.Internal [8, 14] [40], is_root := true, parent_offset := none },
              { node_type := NodeType.Leaf
                               [{ key := 40, value := "d" },
                                { key := 50, value := "e" },
                                { key := 60, value := "f" },
                                { key := 70, value := "g" },
                                { key := 80, value := "h" },
                                { key := 90, value := "i" }],
                is_root := false,
                parent_offset := some 7 }],
    root := some 13,
    events := [Ev.appended 13,
               Ev.appended 14,
               Ev.overwrote 13,
               Ev.overwrote 14,
               Ev.setRoot 13] }

/-- Intermediate state literal, pinned by the step lemma below that
recomputes it from its predecessor. -/
def ps10 : St :=
  { pages := [{ node_type := NodeType.Leaf [], is_root := true, parent_offset := none },
              { node_type := NodeType.Leaf [{ key := 10, value := "a" }],
                is_root := true,
                parent_offset := none },
              { node_type := NodeType.Leaf [{ key := 10, value := "a" }, { key := 20, value := "b" }],
                is_root := true,
                parent_offset := none },
              { node_type := NodeType.Leaf
                               [{ key := 10, value := "a" }, { key := 20, value := "b" }, { key := 30, value := "c" }],
                is_root := true,
                parent_offset := none },
              { node_type := NodeType.Leaf
                               [{ key := 10, value := "a" },
                                { key := 20, value := "b" },
                                { key := 30, value := "c" },
                                { key := 40, value := "d" }],
                is_root := true,
                parent_offset := none },
              { node_type := NodeType.Leaf
                               [{ key := 10, value := "a" },
                                { key := 20, value := "b" },
                                { key := 30, value := "c" },
                                { key := 40, value := "d" },
                                { key := 50, value := "e" }],
                is_root := true,
                parent_offset := none },
              { node_type := NodeType.Leaf
                               [{ key := 10, value := "a" },
                                { key := 20, value := "b" },
                                { key := 30, value := "c" },
                                { key := 40, value := "d" },
                                { key := 50, value := "e" },
                                { key := 60, value := "f" }],
                is_root := true,
                parent_offset := none },
              { node_type := NodeType.Internal [8, 10] [40], is_root := true, parent_offset := none },
              { node_type := NodeType.Leaf
                               [{ key := 10, value := "a" }, { key := 20, value := "b" }, { key := 30, value := "c" }],
                is_root := false,
                parent_offset := some 7 },
              { node_type := NodeType.Leaf
                               [{ key := 40, value := "d" }, { key := 50, value := "e" }, { key := 60, value := "f" }],
                is_root := false,
                parent_offset := some 7 },
              { node_type := NodeType.Leaf
                               [{ key := 40, value := "d" },
                                { key := 50, value := "e" },
                                { key := 60, value := "f" },
                                { key := 70, value := "g" }],
                is_root := false,
                parent_offset := some 7 },
              { node_type := NodeType.Internal [8, 12] [40], is_root := true, parent_offset := none },
              { node_type := NodeType.Leaf
                               [{ key := 40, value := "d" },
                                { key := 50, value := "e" },
                                { key := 60, value := "f" },
                                { key := 70, value := "g" },
                                { key := 80, value := "h" }],
                is_root := false,
                parent_offset := some 7 },
              { node_type := NodeType.Internal [8, 14] [40], is_root := true, parent_offset := none },
              { node_type := NodeType.Leaf
                               [{ key := 40, value := "d" },
                                { key := 50, value := "e" },
                                { key := 60, value := "f" },
                                { key := 70, value := "g" },
                                { key := 80, value := "h" },
                                { key := 90, value := "i" }],
                is_root := false,
                parent_offset := some 7 },
              { node_type := NodeType.Internal [8, 16, 17] [40, 70], is_root := true, parent_offset := none },
              { node_type := NodeType.Leaf
                               [{ key := 40, value := "d" }, { key := 50, value := "e" }, { key := 60, value := "f" }],
                is_root := false,
                parent_offset := some 7 },
              { node_type := NodeType.Leaf
                               [{ key := 70, value := "g" },
                                { key := 80, value := "h" },
                                { key := 90, value := "i" },
                                { key := 100, value := "j" }],
                is_root := false,
                parent_offset := some 7 }],
    root := some 15,
    events := [Ev.appended 15,
               Ev.appended 16,
               Ev.overwrote 16,
               Ev.appended 17,
               Ev.overwrote 15,
               Ev.overwrote 17,
               Ev.setRoot 15] }

/-- Intermediate state literal, pinned by the step lemma below that
recomputes it from its predecessor. -/
def ps11 : St :=
  { pages := [{ node_type := NodeType.Leaf [], is_root := true, parent_offset := none },
              { node_type := NodeType.Leaf [{ key := 10, value := "a" }],
                is_root := true,
                parent_offset := none },
              { node_type := NodeType.Leaf [{ key := 10, value := "a" }, { key := 20, value := "b" }],
                is_root := true,
                parent_offset := none },
              { node_type := NodeType.Leaf
                               [{ key := 10, value := "a" }, { key := 20, value := "b" }, { key := 30, value := "c" }],
                is_root := true,
                parent_offset := none },
              { node_type := NodeType.Leaf
                               [{ key := 10, value := "a" },
                                { key := 20, value := "b" },
                                { key := 30, value := "c" },
                                { key := 40, value := "d" }],
                is_root := true,
                parent_offset := none },
              { node_type := NodeType.Leaf
                               [{ key := 10, value := "a" },
                                { key := 20, value := "b" },
                                { key := 30, value := "c" },
                                { key := 40, value := "d" },
                                { key := 50, value := "e" }],
                is_root := true,
                parent_offset := none },
              { node_type := NodeType.Leaf
                               [{ key := 10, value := "a" },
                                { key := 20, value := "b" },
                                { key := 30, value := "c" },
                                { key := 40, value := "d" },
                                { key := 50, value := "e" },
                                { key := 60, value := "f" }],
                is_root := true,
                parent_offset := none },
              { node_type := NodeType.Internal [8, 10] [40], is_root := true, parent_offset := none },
              { node_type := NodeType.Leaf
                               [{ key := 10, value := "a" }, { key := 20, value := "b" }, { key := 30, value := "c" }],
                is_root := false,
                parent_offset := some 7 },
              { node_type := NodeType.Leaf
                               [{ key := 40, value := "d" }, { key := 50, value := "e" }, { key := 60, value := "f" }],
                is_root := false,
                parent_offset := some 7 },
              { node_type := NodeType.Leaf
                               [{ key := 40, value := "d" },
                                { key := 50, value := "e" },
                                { key := 60, value := "f" },
                                { key := 70, value := "g" }],
                is_root := false,
                parent_offset := some 7 },
              { node_type := NodeType.Internal [8, 12] [40], is_root := true, parent_offset := none },
              { node_type := NodeType.Leaf
                               [{ key := 40, value := "d" },
                                { key := 50, value := "e" },
                                { key := 60, value := "f" },
                                { key := 70, value := "g" },
                                { key := 80, value := "h" }],
                is_root := false,
                parent_offset := some 7 },
              { node_type := NodeType.Internal [8, 14] [40], is_root := true, parent_offset := none },
              { node_type := NodeType.Leaf
                               [{ key := 40, value := "d" },
                                { key := 50, value := "e" },
                                { key := 60, value := "f" },
                                { key := 70, value := "g" },
                                { key := 80, value := "h" },
                                { key := 90, value := "i" }],
                is_root := false,
                parent_offset := some 7 },
              { node_type := NodeType.Internal [8, 16, 17] [40, 70], is_root := true, parent_offset := none },
              { node_type := NodeType.Leaf
                               [{ key := 40, value := "d" }, { key := 50, value := "e" }, { key := 60, value := "f" }],
                is_root := false,
                parent_offset := some 7 },
              { node_type := NodeType.Leaf
                               [{ key := 70, value := "g" },
                                { key := 80, value := "h" },
                                { key := 90, value := "i" },
                                { key := 100, value := "j" }],
                is_root := false,
                parent_offset := some 7 },
              { node_type := NodeType.Internal [8, 16, 19] [40, 70], is_root := true, parent_offset := none },
              { node_type := NodeType.Leaf
                               [{ key := 70, value := "g" }, { key := 80, value := "h" }, { key := 90, value := "i" }],
                is_root := false,
                parent_offset := some 18 }],
    root := some 18,
    events := [Ev.appended 18,
               Ev.appended 19,
               Ev.overwrote 18,
               Ev.overwrote 19,
               Ev.setRoot 18] }

/-- Intermediate state literal, pinned by the step lemma below that
recomputes it from its predecessor. -/
def ps12 : St :=
  { pages := [{ node_type := NodeType.Leaf [], is_root := true, parent_offset := none },
              { node_type := NodeType.Leaf [{ key := 10, value := "a" }],
                is_root := true,
                parent_offset := none },
              { node_type := NodeType.Leaf [{ key := 10, value := "a" }, { key := 20, value := "b" }],
                is_root := true,
                parent_offset := none },
              { node_type := NodeType.Leaf
                               [{ key := 10, value := "a" }, { key := 20, value := "b" }, { key := 30, value := "c" }],
                is_root := true,
                parent_offset := none },
              { node_type := NodeType.Leaf
                               [{ key := 10, value := "a" },
                                { key := 20, value := "b" },
                                { key := 30, value := "c" },
                                { key := 40, value := "d" }],
                is_root := true,
                parent_offset := none },
              { node_type := NodeType.Leaf
                               [{ key := 10, value := "a" },
                                { key := 20, value := "b" },
                                { key := 30, value := "c" },
                                { key := 40, value := "d" },
                                { key := 50, value := "e" }],
                is_root := true,
                parent_offset := none },
              { node_type := NodeType.Leaf
                               [{ key := 10, value := "a" },
                                { key := 20, value := "b" },
                                { key := 30, value := "c" },
                                { key := 40, value := "d" },
                                { key := 50, value := "e" },
                                { key := 60, value := "f" }],
                is_root := true,
                parent_offset := none },
              { node_type := NodeType.Internal [8, 10] [40], is_root := true, parent_offset := none },
              { node_type := NodeType.Leaf
                               [{ key := 10, value := "a" }, { key := 20, value := "b" }, { key := 30, value := "c" }],
                is_root := false,
                parent_offset := some 7 },
              { node_type := NodeType.Leaf
                               [{ key := 40, value := "d" }, { key := 50, value := "e" }, { key := 60, value := "f" }],
                is_root := false,
                parent_offset := some 7 },
              { node_type := NodeType.Leaf
                               [{ key := 40, value := "d" },
                                { key := 50, value := "e" },
                                { key := 60, value := "f" },
                                { key := 70, value := "g" }],
                is_root := false,
                parent_offset := some 7 },
              { node_type := NodeType.Internal [8, 12] [40], is_root := true, parent_offset := none },
              { node_type := NodeType.Leaf
                               [{ key := 40, value := "d" },
                                { key := 50, value := "e" },
                                { key := 60, value := "f" },
                                { key := 70, value := "g" },
                                { key := 80, value := "h" }],
                is_root := false,
                parent_offset := some 7 },
              { node_type := NodeType.Internal [8, 14] [40], is_root := true, parent_offset := none },
              { node_type := NodeType.Leaf
                               [{ key := 40, value := "d" },
                                { key := 50, value := "e" },
                                { key := 60, value := "f" },
                                { key := 70, value := "g" },
                                { key := 80, value := "h" },
                                { key := 90, value := "i" }],
                is_root := false,
                parent_offset := some 7 },
              { node_type := NodeType.Internal [8, 16, 17] [40, 70], is_root := true, parent_offset := none },
              { node_type := NodeType.Leaf
                               [{ key := 40, value := "d" }, { key := 50, value := "e" }, { key := 60, value := "f" }],
                is_root := false,
                parent_offset := some 7 },
              { node_type := NodeType.Leaf
                               [{ key := 70, value := "g" },
                                { key := 80, value := "h" },
                                { key := 90, value := "i" },
                                { key := 100, value := "j" }],
                is_root := false,
                parent_offset := some 7 },
              { node_type := NodeType.Internal [8, 16, 19] [40, 70], is_root := true, parent_offset := none },
              { node_type := NodeType.Leaf
                               [{ key := 70, value := "g" }, { key := 80, value := "h" }, { key := 90, value := "i" }],
                is_root := false,
                parent_offset := some 18 },
              { node_type := NodeType.Internal [8, 16, 21] [40, 70], is_root := true, parent_offset := none },
              { node_type := NodeType.Leaf [{ key := 70, value := "g" }, { key := 80, value := "h" }],
                is_root := false,
                parent_offset := some 20 }],
    root := some 20,
    events := [Ev.appended 20,
               Ev.appended 21,
               Ev.overwrote 20,
               Ev.overwrote 21,
               Ev.setRoot 20] }

/-- Intermediate state literal, pinned by the step lemma below that
recomputes it from its predecessor. -/
def qs11 : St :=
  { pages := [{ node_type := NodeType.Leaf [], is_root := true, parent_offset := none },
              { node_type := NodeType.Leaf [{ key := 10, value := "a" }],
                is_root := true,
                parent_offset := none },
              { node_type := NodeType.Leaf [{ key := 10, value := "a" }, { key := 20, value := "b" }],
                is_root := true,
                parent_offset := none },
              { node_type := NodeType.Leaf
                               [{ key := 10, value := "a" }, { key := 20, value := "b" }, { key := 30, value := "c" }],
                is_root := true,
                parent_offset := none },
              { node_type := NodeType.Leaf
                               [{ key := 10, value := "a" },
                                { key := 20, value := "b" },
                                { key := 30, value := "c" },
                                { key := 40, value := "d" }],
                is_root := true,
                parent_offset := none },
              { node_type := NodeType.Leaf
                               [{ key := 10, value := "a" },
                                { key := 20, value := "b" },
                                { key := 30, value := "c" },
                                { key := 40, value := "d" },
                                { key := 50, value := "e" }],
                is_root := true,
                parent_offset := none },
              { node_type := NodeType.Leaf
                               [{ key := 10, value := "a" },
                                { key := 20, value := "b" },
                                { key := 30, value := "c" },
                                { key := 40, value := "d" },
                                { key := 50, value := "e" },
                                { key := 60, value := "f" }],
                is_root := true,
                parent_offset := none },
              { node_type := NodeType.Internal [8, 10] [40], is_root := true, parent_offset := none },
              { node_type := NodeType.Leaf
                               [{ key := 10, value := "a" }, { key := 20, value := "b" }, { key := 30, value := "c" }],
                is_root := false,
                parent_offset := some 7 },
              { node_type := NodeType.Leaf
                               [{ key := 40, value := "d" }, { key := 50, value := "e" }, { key := 60, value := "f" }],
                is_root := false,
                parent_offset := some 7 },
              { node_type := NodeType.Leaf
                               [{ key := 40, value := "d" },
                                { key := 50, value := "e" },
                                { key := 60, value := "f" },
                                { key := 70, value := "g" }],
                is_root := false,
                parent_offset := some 7 },
              { node_type := NodeType.Internal [8, 12] [40], is_root := true, parent_offset := none },
              { node_type := NodeType.Leaf
                               [{ key := 40, value := "d" },
                                { key := 50, value := "e" },
                                { key := 60, value := "f" },
                                { key := 70, value := "g" },
                                { key := 80, value := "h" }],
                is_root := false,
                parent_offset := some 7 },
              { node_type := NodeType.Internal [8, 14] [40], is_root := true, parent_offset := none },
              { node_type := NodeType.Leaf
                               [{ key := 40, value := "d" },
                                { key := 50, value := "e" },
                                { key := 60, value := "f" },
                                { key := 70, value := "g" },
                                { key := 80, value := "h" },
                                { key := 90, value := "i" }],
                is_root := false,
                parent_offset := some 7 },
              { node_type := NodeType.Internal [8, 16, 17] [40, 70], is_root := true, parent_offset := none },
              { node_type := NodeType.Leaf
                               [{ key := 40, value := "d" }, { key := 50, value := "e" }, { key := 60, value := "f" }],
                is_root := false,
                parent_offset := some 7 },
              { node_type := NodeType.Leaf
                               [{ key := 70, value := "g" },
                                { key := 80, value := "h" },
                                { key := 90, value := "i" },
                                { key := 100, value := "j" }],
                is_root := false,
                parent_offset := some 7 },
              { node_type := NodeType.Internal [8, 19, 17] [40, 70], is_root := true, parent_offset := none },
              { node_type := NodeType.Leaf [{ key := 40, value := "d" }, { key := 60, value := "f" }],
                is_root := false,
                parent_offset := some 18 }],
    root := some 18,
    events := [Ev.appended 18,
               Ev.appended 19,
               Ev.overwrote 18,
               Ev.overwrote 19,
               Ev.setRoot 18] }

/-- Relation between a state and a later state of the same operation in which
no set_root happened and nothing else observable changed beyond appends at or
above L: events only accumulate, pages below L are untouched, the file only
grows, the set_root count is unchanged and the committed root is unchanged. -/
def Quiet (L : Nat) (s s' : St) : Prop :=
  Step L s s' ∧ srCount s'.events = srCount s.events ∧ s'.root = s.root

/-! ### Trace lemmas -/

/-- The state produced by write_page. -/
def wpSt (s : St) (n : Node) : St :=
  { s with
    pages := s.pages ++ [n]
    events := s.events ++ [Ev.appended s.pages.length] }

/-- The state produced by a successful write_page_at_offset. -/
def owSt (s : St) (n : Node) (o : Nat) : St :=
  { s with
    pages := s.pages.set o n
    events := s.events ++ [Ev.overwrote o] }

/-- The state produced by set_root. -/
def srSt (s : St) (o : Nat) : St :=
  { s with
    root := some o
    events := s.events ++ [Ev.setRoot o] }

/-- Post-relation of borrow_if_needed for an operation started at file length
L from state s: the delete invariant holds, only fresh pages were touched,
at most one set_root happened, and the result is never KeyNotFound. -/
def BorPost (L : Nat) (s : St) (r : Except Error Unit × St) : Prop :=
  DelOK L r.2 ∧ Step L s r.2 ∧
    srCount r.2.events ≤ srCount s.events + 1 ∧
    r.1 ≠ Except.error Error.KeyNotFound

/-- Post-relation of delete_key_from_subtree: as for borrow_if_needed, and
when the result is KeyNotFound no set_root happened and the committed root is
unchanged. -/
def DkfsPost (L : Nat) (s : St) (r : Except Error Unit × St) : Prop :=
  DelOK L r.2 ∧ Step L s r.2 ∧
    srCount r.2.events ≤ srCount s.events + 1 ∧
    (r.1 = Except.error Error.KeyNotFound → Quiet L s r.2)

theorem seenAcc_append (es₁ es₂ : List Ev) :
    ∀ seen, seenAcc seen (es₁ ++ es₂) = seenAcc (seenAcc seen es₁) es₂ := by
  induction es₁ with
  | nil => intro seen; rfl
  | cons e es ih => intro seen; cases e <;> simp [seenAcc, ih]

theorem subset_seenAcc (es : List Ev) :
    ∀ seen o, o ∈ seen → o ∈ seenAcc seen es := by
  induction es with
  | nil => intro seen o h; exact h
  | cons e es ih =>
    intro seen o h
    cases e with
    | appended p => exact ih _ _ (List.mem_cons_of_mem _ h)
    | overwrote p => exact ih _ _ h
    | setRoot p => exact ih _ _ h

theorem cowOK_append (es₁ es₂ : List Ev) :
    ∀ seen, cowOK seen (es₁ ++ es₂)
      = (cowOK seen es₁ && cowOK (seenAcc seen es₁) es₂) := by
  induction es₁ with
  | nil => intro seen; simp [cowOK, seenAcc]
  | cons e es ih =>
    intro seen
    cases e <;> simp [cowOK, seenAcc, ih, Bool.and_assoc]

theorem srCount_append (es₁ es₂ : List Ev) :
    srCount (es₁ ++ es₂) = srCount es₁ + srCount es₂ := by
  induction es₁ with
  | nil => simp [srCount]
  | cons e es ih => cases e <;> simp [srCount, ih] <;> omega

theorem cowOK_overwrote_mem :
    ∀ (es : List Ev) (seen : List Nat) (o : Nat),
      cowOK seen es = true → Ev.overwrote o ∈ es → o ∈ seenAcc seen es := by
  intro es
  induction es with
  | nil => intro seen o _ hm; cases hm
  | cons e es ih =>
    intro seen o hc hm
    cases e with
    | appended p =>
      simp only [cowOK] at hc
      rcases List.mem_cons.mp hm with h | h
      · cases h
      · exact ih _ _ hc h
    | overwrote p =>
      simp only [cowOK, Bool.and_eq_true] at hc
      rcases List.mem_cons.mp hm with h | h
      · cases h
        exact subset_seenAcc _ _ _ (List.mem_of_elem_eq_true hc.1)
      · exact ih _ _ hc.2 h
    | setRoot p =>
      simp only [cowOK] at hc
      rcases List.mem_cons.mp hm with h | h
      · cases h
      · exact ih _ _ hc h

theorem mem_SEEN_of_suffix {s s' : St} (h : ∃ es, s'.events = s.events ++ es)
    {o : Nat} (ho : o ∈ SEEN s) : o ∈ SEEN s' := by
  obtain ⟨es, he⟩ := h
  unfold SEEN at *
  rw [he, seenAcc_append]
  exact subset_seenAcc _ _ _ ho

theorem NodeRef_of_suffix {s s' : St} (h : ∃ es, s'.events = s.events ++ es)
    {n : Node} (hn : NodeRef s n) : NodeRef s' n := by
  rcases hn with h1 | h1 | ⟨q, hq, hqm⟩
  · exact Or.inl h1
  · exact Or.inr (Or.inl h1)
  · exact Or.inr (Or.inr ⟨q, hq, mem_SEEN_of_suffix h hqm⟩)

theorem Step_refl (L : Nat) (s : St) : Step L s s :=
  ⟨⟨[], by simp⟩, fun _ _ => rfl, Nat.le_refl _⟩

theorem Step_trans {L : Nat} {s₁ s₂ s₃ : St}
    (h1 : Step L s₁ s₂) (h2 : Step L s₂ s₃) : Step L s₁ s₃ := by
  obtain ⟨⟨es1, he1⟩, hl1, hg1⟩ := h1
  obtain ⟨⟨es2, he2⟩, hl2, hg2⟩ := h2
  exact ⟨⟨es1 ++ es2, by rw [he2, he1, List.append_assoc]⟩,
    fun o ho => (hl2 o ho).trans (hl1 o ho), hg1.trans hg2⟩

theorem Quiet_refl (L : Nat) (s : St) : Quiet L s s :=
  ⟨Step_refl L s, rfl, rfl⟩

theorem Quiet_trans {L : Nat} {s₁ s₂ s₃ : St}
    (h1 : Quiet L s₁ s₂) (h2 : Quiet L s₂ s₃) : Quiet L s₁ s₃ :=
  ⟨Step_trans h1.1 h2.1, h2.2.1.trans h1.2.1, h2.2.2.trans h1.2.2⟩

/-! ### Monad application lemmas -/

theorem bind_app {α β : Type} (x : M α) (f : α → M β) (s : St) :
    (x >>= f) s
      = match x s with
        | (Except.ok a, s1) => f a s1
        | (Except.error e, s1) => (Except.error e, s1) := rfl

theorem pure_app {α : Type} (a : α) (s : St) :
    (pure a : M α) s = (Except.ok a, s) := rfl

theorem throwE_app {α : Type} (e : Error) (s : St) :
    (throwE e : M α) s = (Except.error e, s) := rfl

theorem liftE_bind {α β : Type} (e : Except Error α) (f : α → M β) (s : St) :
    (liftE e >>= f) s
      = match e with
        | Except.ok a => f a s
        | Except.error er => (Except.error er, s) := by
  cases e <;> rfl

theorem okOr_bind {α β : Type} (x : Option α) (er : Error) (f : α → M β) (s : St) :
    (okOr x er >>= f) s
      = match x with
        | some a => f a s
        | none => (Except.error er, s) := by
  cases x <;> rfl

theorem get_page_bind {β : Type} (o : Nat) (f : Node → M β) (s : St) :
    (get_page o >>= f) s
      = match s.pages.get? o with
        | some n => f n s
        | none => (Except.error Error.UnexpectedError, s) := by
  rw [bind_app]
  unfold get_page
  cases s.pages.get? o <;> rfl

theorem get_root_bind {β : Type} (f : Nat → M β) (s : St) :
    (get_root >>= f) s
      = match s.root with
        | some r => f r s
        | none => (Except.error Error.UnexpectedError, s) := by
  rw [bind_app]
  unfold get_root
  cases s.root <;> rfl

theorem write_page_bind {β : Type} (n : Node) (f : Nat → M β) (s : St) :
    (write_page n >>= f) s = f s.pages.length (wpSt s n) := rfl

theorem wpao_bind {β : Type} (n : Node) (o : Nat) (f : Unit → M β) (s : St) :
    (write_page_at_offset n o >>= f) s
      = if o < s.pages.length then f () (owSt s n o)
        else (Except.error Error.UnexpectedError, s) := by
  rw [bind_app]
  unfold write_page_at_offset
  by_cases h : o < s.pages.length
  · rw [if_pos h, if_pos h]
    rfl
  · rw [if_neg h, if_neg h]

theorem wpao_app (n : Node) (o : Nat) (s : St) :
    write_page_at_offset n o s
      = if o < s.pages.length then (Except.ok (), owSt s n o)
        else (Except.error Error.UnexpectedError, s) := by
  unfold write_page_at_offset
  split <;> rfl

theorem set_root_bind {β : Type} (o : Nat) (f : Unit → M β) (s : St) :
    (set_root o >>= f) s = f () (srSt s o) := rfl

theorem set_root_app (o : Nat) (s : St) :
    set_root o s = (Except.ok (), srSt s o) := rfl

theorem ite_app {α : Type} (c : Prop) [Decidable c] (m1 m2 : M α) (s : St) :
    (if c then m1 else m2) s = if c then m1 s else m2 s := by
  split <;> rfl

/-! ### Invariant preservation over the primitive state transitions -/

theorem SEEN_wpSt (s : St) (n : Node) :
    SEEN (wpSt s n) = s.pages.length :: SEEN s := by
  unfold SEEN wpSt
  simp [seenAcc_append, seenAcc]

theorem SEEN_owSt (s : St) (n : Node) (o : Nat) :
    SEEN (owSt s n o) = SEEN s := by
  unfold SEEN owSt
  simp [seenAcc_append, seenAcc]

theorem SEEN_srSt (s : St) (o : Nat) :
    SEEN (srSt s o) = SEEN s := by
  unfold SEEN srSt
  simp [seenAcc_append, seenAcc]

theorem EvOK_wpSt {L : Nat} {s : St} (h : EvOK L s) (n : Node) :
    EvOK L (wpSt s n) := by
  obtain ⟨hc, hl, hb⟩ := h
  refine ⟨?_, ?_, ?_⟩
  · show cowOK [] (s.events ++ [Ev.appended s.pages.length]) = true
    rw [cowOK_append, hc]
    rfl
  · show L ≤ (s.pages ++ [n]).length
    simp only [List.length_append, List.length_singleton]
    omega
  · intro o ho
    rw [SEEN_wpSt] at ho
    show L ≤ o ∧ o < (s.pages ++ [n]).length
    simp only [List.length_append, List.length_singleton]
    rcases List.mem_cons.mp ho with h | h
    · subst h; exact ⟨hl, by omega⟩
    · obtain ⟨h1, h2⟩ := hb o h
      exact ⟨h1, by omega⟩

theorem Quiet_wpSt {L : Nat} {s : St} (hL : L ≤ s.pages.length) (n : Node) :
    Quiet L s (wpSt s n) := by
  refine ⟨⟨⟨[Ev.appended s.pages.length], rfl⟩, ?_, ?_⟩, ?_, rfl⟩
  · intro o ho
    show (s.pages ++ [n]).get? o = s.pages.get? o
    exact List.get?_append (by omega)
  · show s.pages.length ≤ (s.pages ++ [n]).length
    simp
  · show srCount (s.events ++ [Ev.appended s.pages.length]) = srCount s.events
    rw [srCount_append]
    rfl

theorem EvOK_owSt {L : Nat} {s : St} (h : EvOK L s) {o : Nat} (ho : o ∈ SEEN s)
    (n : Node) : EvOK L (owSt s n o) := by
  obtain ⟨hc, hl, hb⟩ := h
  refine ⟨?_, ?_, ?_⟩
  · show cowOK [] (s.events ++ [Ev.overwrote o]) = true
    rw [cowOK_append, hc]
    show (true && _) = true
    simp only [Bool.true_and, cowOK]
    rw [Bool.and_eq_true]
    exact ⟨List.elem_eq_true_of_mem ho, rfl⟩
  · show L ≤ (s.pages.set o n).length
    simpa using hl
  · intro p hp
    rw [SEEN_owSt] at hp
    obtain ⟨h1, h2⟩ := hb p hp
    refine ⟨h1, ?_⟩
    show p < (s.pages.set o n).length
    simpa using h2

theorem Quiet_owSt {L : Nat} {s : St} (h : EvOK L s) {o : Nat} (ho : o ∈ SEEN s)
    (n : Node) : Quiet L s (owSt s n o) := by
  obtain ⟨hc, hl, hb⟩ := h
  refine ⟨⟨⟨[Ev.overwrote o], rfl⟩, ?_, ?_⟩, ?_, rfl⟩
  · intro p hp
    show (s.pages.set o n).get? p = s.pages.get? p
    obtain ⟨h1, _⟩ := hb o ho
    exact List.get?_set_ne _ _ (by omega)
  · show s.pages.length ≤ (s.pages.set o n).length
    simp
  · show srCount (s.events ++ [Ev.overwrote o]) = srCount s.events
    rw [srCount_append]
    rfl

theorem EvOK_srSt {L : Nat} {s : St} (h : EvOK L s) (o : Nat) :
    EvOK L (srSt s o) := by
  obtain ⟨hc, hl, hb⟩ := h
  refine ⟨?_, hl, ?_⟩
  · show cowOK [] (s.events ++ [Ev.setRoot o]) = true
    rw [cowOK_append, hc]
    rfl
  · intro p hp
    rw [SEEN_srSt] at hp
    exact hb p hp

theorem Step_srSt (L : Nat) (s : St) (o : Nat) :
    Step L s (srSt s o) :=
  ⟨⟨[Ev.setRoot o], rfl⟩, fun _ _ => rfl, Nat.le_refl _⟩

theorem srCount_srSt (s : St) (o : Nat) :
    srCount (srSt s o).events = srCount s.events + 1 := by
  show srCount (s.events ++ [Ev.setRoot o]) = _
  rw [srCount_append]
  rfl

theorem mem_SEEN_Quiet {L : Nat} {s s' : St} (hq : Quiet L s s') {o : Nat}
    (ho : o ∈ SEEN s) : o ∈ SEEN s' :=
  mem_SEEN_of_suffix hq.1.1 ho

/-- Accumulator step: appending a page preserves the event invariant and the
quiet relation to the operation start. -/
theorem chain_wp {L : Nat} {s0 s : St} (acc : EvOK L s ∧ Quiet L s0 s) (n : Node) :
    EvOK L (wpSt s n) ∧ Quiet L s0 (wpSt s n) :=
  ⟨EvOK_wpSt acc.1 n, Quiet_trans acc.2 (Quiet_wpSt acc.1.2.1 n)⟩

/-- Accumulator step: overwriting a previously appended page preserves the
event invariant and the quiet relation to the operation start. -/
theorem chain_ow {L : Nat} {s0 s : St} (acc : EvOK L s ∧ Quiet L s0 s)
    {o : Nat} (ho : o ∈ SEEN s) (n : Node) :
    EvOK L (owSt s n o) ∧ Quiet L s0 (owSt s n o) :=
  ⟨EvOK_owSt acc.1 ho n, Quiet_trans acc.2 (Quiet_owSt acc.1 ho n)⟩

theorem liftE_bind_ok {α β : Type} (a : α) (f : α → M β) (s : St) :
    (liftE (Except.ok a) >>= f) s = f a s := rfl

theorem liftE_bind_err {α β : Type} (er : Error) (f : α → M β) (s : St) :
    ((liftE (Except.error er) : M α) >>= f) s = (Except.error er, s) := rfl

theorem okOr_bind_some {α β : Type} (a : α) (er : Error) (f : α → M β) (s : St) :
    (okOr (some a) er >>= f) s = f a s := rfl

theorem okOr_bind_none {α β : Type} (er : Error) (f : α → M β) (s : St) :
    (okOr (none : Option α) er >>= f) s = (Except.error er, s) := rfl

theorem get_page_bind_some {β : Type} {o : Nat} {s : St} {n : Node}
    (hX : s.pages.get? o = some n) (f : Node → M β) :
    (get_page o >>= f) s = f n s := by
  rw [get_page_bind, hX]

theorem get_page_bind_none {β : Type} {o : Nat} {s : St}
    (hX : s.pages.get? o = none) (f : Node → M β) :
    (get_page o >>= f) s = (Except.error Error.UnexpectedError, s) := by
  rw [get_page_bind, hX]

theorem get_root_bind_some {r : Nat} {s : St} {β : Type}
    (hX : s.root = some r) (f : Nat → M β) :
    (get_root >>= f) s = f r s := by
  rw [get_root_bind, hX]

theorem get_root_bind_none {s : St} {β : Type}
    (hX : s.root = none) (f : Nat → M β) :
    (get_root >>= f) s = (Except.error Error.UnexpectedError, s) := by
  rw [get_root_bind, hX]

/-- Master lemma for insert_non_full: starting from any state satisfying the
event invariant for starting length L, with a target offset appended by this
operation, the recursion preserves the event invariant, never calls set_root,
never changes the committed root, only appends or overwrites pages at
offsets at least L, and only grows the file. -/
theorem inf_master (b L : Nat) :
    ∀ (fuel : Nat) (node : Node) (noff : Nat) (kv : KeyValuePair) (s : St),
      EvOK L s → noff ∈ SEEN s →
      EvOK L (insert_non_full b fuel node noff kv s).2 ∧
      Quiet L s (insert_non_full b fuel node noff kv s).2 := by
  intro fuel
  induction fuel with
  | zero =>
    intro node noff kv s h _
    exact ⟨h, Quiet_refl L s⟩
  | succ fuel ih =>
    intro node noff kv s h hm
    obtain ⟨nt, ir, po⟩ := node
    have acc0 : EvOK L s ∧ Quiet L s s := ⟨h, Quiet_refl L s⟩
    cases nt with
    | Leaf pairs =>
      simp only [insert_non_full]
      cases hvi : vecInsert pairs
          (unwrapIdx (binary_search_by (fun p => KeyValuePair.cmp p kv) pairs)) kv with
      | error e =>
        rw [liftE_bind_err]
        exact acc0
      | ok pairs2 =>
        rw [liftE_bind_ok, wpao_app]
        by_cases hlt : noff < s.pages.length
        · rw [if_pos hlt]
          exact chain_ow acc0 hm _
        · rw [if_neg hlt]
          exact acc0
    | Internal children keys =>
      simp only [insert_non_full]
      cases hco : children.get?
          (unwrapIdx (binary_search_by (fun k => compare k kv.key) keys)) with
      | none =>
        rw [okOr_bind_none]
        exact acc0
      | some child_offset =>
        rw [okOr_bind_some]
        cases hgp : s.pages.get? child_offset with
        | none =>
          rw [get_page_bind_none hgp]
          exact acc0
        | some child =>
          rw [get_page_bind_some hgp, write_page_bind]
          have acc1 := chain_wp acc0 child
          have hm1 : noff ∈ SEEN (wpSt s child) := mem_SEEN_Quiet acc1.2 hm
          have hmc1 : s.pages.length ∈ SEEN (wpSt s child) := by
            rw [SEEN_wpSt]
            exact List.mem_cons_self _ _
          cases hvs : vecSet children
              (unwrapIdx (binary_search_by (fun k => compare k kv.key) keys))
              s.pages.length with
          | error e =>
            rw [liftE_bind_err]
            exact acc1
          | ok children1 =>
            rw [liftE_bind_ok]
            cases hfl : is_node_full b child with
            | error e =>
              rw [liftE_bind_err]
              exact acc1
            | ok full =>
              rw [liftE_bind_ok, ite_app]
              by_cases hf : full = true
              · rw [if_pos hf]
                cases hsp : splitNode b child with
                | error e =>
                  rw [liftE_bind_err]
                  exact acc1
                | ok ms =>
                  rw [liftE_bind_ok, wpao_bind]
                  by_cases hlt1 : s.pages.length < (wpSt s child).pages.length
                  · rw [if_pos hlt1]
                    have acc2 := chain_ow acc1 hmc1 ms.2.1
                    have hm2 : noff ∈ SEEN (owSt (wpSt s child) ms.2.1 s.pages.length) :=
                      mem_SEEN_Quiet (Quiet_owSt acc1.1 hmc1 ms.2.1) hm1
                    have hmc2 : s.pages.length
                        ∈ SEEN (owSt (wpSt s child) ms.2.1 s.pages.length) := by
                      rw [SEEN_owSt]
                      exact hmc1
                    rw [write_page_bind]
                    have acc3 := chain_wp acc2 ms.2.2
                    have hsib : (owSt (wpSt s child) ms.2.1 s.pages.length).pages.length
                        ∈ SEEN (wpSt (owSt (wpSt s child) ms.2.1 s.pages.length) ms.2.2) := by
                      rw [SEEN_wpSt]
                      exact List.mem_cons_self _ _
                    have hm3 : noff
                        ∈ SEEN (wpSt (owSt (wpSt s child) ms.2.1 s.pages.length) ms.2.2) :=
                      mem_SEEN_Quiet (Quiet_wpSt acc2.1.2.1 ms.2.2) hm2
                    cases hvi1 : vecInsert children1
                        (unwrapIdx (binary_search_by (fun k => compare k kv.key) keys) + 1)
                        (owSt (wpSt s child) ms.2.1 s.pages.length).pages.length with
                    | error e =>
                      rw [liftE_bind_err]
                      exact acc3
                    | ok children2 =>
                      rw [liftE_bind_ok]
                      cases hvi2 : vecInsert keys
                          (unwrapIdx (binary_search_by (fun k => compare k kv.key) keys))
                          ms.1 with
                      | error e =>
                        rw [liftE_bind_err]
                        exact acc3
                      | ok keys2 =>
                        rw [liftE_bind_ok, wpao_bind]
                        by_cases hlt2 : noff
                            < (wpSt (owSt (wpSt s child) ms.2.1 s.pages.length)
                                ms.2.2).pages.length
                        · rw [if_pos hlt2]
                          have acc4 := chain_ow acc3 hm3
                            { node_type := NodeType.Internal children2 keys2
                              is_root := ir
                              parent_offset := po }
                          have hmc4b : s.pages.length
                              ∈ SEEN (wpSt (owSt (wpSt s child) ms.2.1 s.pages.length) ms.2.2) :=
                            mem_SEEN_Quiet (Quiet_wpSt acc2.1.2.1 ms.2.2) hmc2
                          have hmc5 := mem_SEEN_Quiet
                            (Quiet_owSt acc3.1 hm3
                              { node_type := NodeType.Internal children2 keys2
                                is_root := ir
                                parent_offset := po }) hmc4b
                          have hsib4 := mem_SEEN_Quiet
                            (Quiet_owSt acc3.1 hm3
                              { node_type := NodeType.Internal children2 keys2
                                is_root := ir
                                parent_offset := po }) hsib
                          rw [ite_app]
                          by_cases hk : kv.key ≤ ms.1
                          · rw [if_pos hk]
                            obtain ⟨ha, hb⟩ := ih ms.2.1 s.pages.length kv _ acc4.1 hmc5
                            exact ⟨ha, Quiet_trans acc4.2 hb⟩
                          · rw [if_neg hk]
                            obtain ⟨ha, hb⟩ := ih ms.2.2 _ kv _ acc4.1 hsib4
                            exact ⟨ha, Quiet_trans acc4.2 hb⟩
                        · rw [if_neg hlt2]
                          exact acc3
                  · rw [if_neg hlt1]
                    exact acc1
              · rw [if_neg hf, wpao_bind]
                by_cases hlt1 : noff < (wpSt s child).pages.length
                · rw [if_pos hlt1]
                  have acc2 := chain_ow acc1 hm1
                    { node_type := NodeType.Internal children1 keys
                      is_root := ir
                      parent_offset := po }
                  have hmc2 := mem_SEEN_Quiet
                    (Quiet_owSt acc1.1 hm1
                      { node_type := NodeType.Internal children1 keys
                        is_root := ir
                        parent_offset := po }) hmc1
                  obtain ⟨ha, hb⟩ := ih child s.pages.length kv _ acc2.1 hmc2
                  exact ⟨ha, Quiet_trans acc2.2 hb⟩
                · rw [if_neg hlt1]
                  exact acc1
    | Unexpected => exact acc0

theorem run_bind_eq {α β : Type} {x : M α} {s : St} {a : α} {s' : St}
    (hx : x s = (Except.ok a, s')) (f : α → M β) :
    (x >>= f) s = f a s' := by
  rw [bind_app, hx]

theorem run_bind_err {α β : Type} {x : M α} {s : St} {e : Error} {s' : St}
    (hx : x s = (Except.error e, s')) (f : α → M β) :
    (x >>= f) s = (Except.error e, s') := by
  rw [bind_app, hx]

theorem M_bind_assoc_app {α β γ : Type} (x : M α) (f : α → M β) (g : β → M γ)
    (s : St) :
    ((x >>= f) >>= g) s = (x >>= fun a => f a >>= g) s := by
  rw [bind_app (x >>= f) g s, bind_app x (fun a => f a >>= g) s, bind_app x f s]
  rcases x s with ⟨r, s1⟩
  cases r
  · rfl
  · rfl

theorem M_bind_assoc {α β γ : Type} (x : M α) (f : α → M β) (g : β → M γ) :
    (x >>= f) >>= g = x >>= fun a => f a >>= g := by
  funext s
  exact M_bind_assoc_app x f g s

theorem M_pure_bind {α β : Type} (a : α) (f : α → M β) :
    (pure a : M α) >>= f = f a := by
  funext s
  rw [bind_app, pure_app]

theorem ite_bind {α β : Type} (c : Prop) [Decidable c] (m1 m2 : M α)
    (f : α → M β) :
    ((if c then m1 else m2) >>= f) = if c then m1 >>= f else m2 >>= f := by
  split <;> rfl

/-- The event invariant holds at the start of an operation whose ghost trace
is empty, taking L to be the current file length. -/
theorem EvOK_init {s : St} (h : s.events = []) : EvOK s.pages.length s := by
  refine ⟨?_, Nat.le_refl _, ?_⟩
  · rw [h]
    rfl
  · intro o ho
    rw [SEEN, h] at ho
    cases ho

/-- Every offset recorded as overwritten in a state satisfying the event
invariant is at least the starting length L. -/
theorem overwrote_ge {L : Nat} {s' : St} (h : EvOK L s') {o : Nat}
    (ho : Ev.overwrote o ∈ s'.events) : L ≤ o :=
  (h.2.2 o (cowOK_overwrote_mem s'.events [] o h.1 ho)).1

/-- Leaf goal of the insert master when the computation stopped with an
error in state sX. -/
theorem ins_err_leaf {L : Nat} {s sX : St} {e : Error}
    (acc : EvOK L sX ∧ Quiet L s sX) :
    EvOK L ((Except.error e, sX) : Except Error Unit × St).2 ∧
    Step L s ((Except.error e, sX) : Except Error Unit × St).2 ∧
    srCount ((Except.error e, sX) : Except Error Unit × St).2.events
      ≤ srCount s.events + 1 ∧
    (((Except.error e, sX) : Except Error Unit × St).1 = Except.ok ()
      → srCount ((Except.error e, sX) : Except Error Unit × St).2.events
          = srCount s.events + 1) := by
  refine ⟨acc.1, acc.2.1, ?_, ?_⟩
  · show srCount sX.events ≤ srCount s.events + 1
    rw [acc.2.2.1]
    omega
  · intro hok
    cases hok

/-- Leaf goal of the insert master at the final successful set_root. -/
theorem ins_ok_leaf {L : Nat} {s s5 : St} (acc : EvOK L s5 ∧ Quiet L s s5)
    (o : Nat) :
    EvOK L ((Except.ok (), srSt s5 o) : Except Error Unit × St).2 ∧
    Step L s ((Except.ok (), srSt s5 o) : Except Error Unit × St).2 ∧
    srCount ((Except.ok (), srSt s5 o) : Except Error Unit × St).2.events
      ≤ srCount s.events + 1 ∧
    (((Except.ok (), srSt s5 o) : Except Error Unit × St).1 = Except.ok ()
      → srCount ((Except.ok (), srSt s5 o) : Except Error Unit × St).2.events
          = srCount s.events + 1) := by
  refine ⟨EvOK_srSt acc.1 o, Step_trans acc.2.1 (Step_srSt L s5 o), ?_, fun _ => ?_⟩
  · show srCount (srSt s5 o).events ≤ srCount s.events + 1
    rw [srCount_srSt, acc.2.2.1]
  · show srCount (srSt s5 o).events = srCount s.events + 1
    rw [srCount_srSt, acc.2.2.1]

/-- Master lemma for insert: from any state satisfying the event invariant,
insert preserves it, only appends or overwrites pages at offsets at least L
(leaving pages below L untouched), and calls set_root exactly once when it
completes (at most once otherwise). -/
theorem insert_master (b fuel : Nat) (kv : KeyValuePair) (L : Nat) (s : St)
    (h : EvOK L s) :
    EvOK L (insert b fuel kv s).2 ∧ Step L s (insert b fuel kv s).2 ∧
    srCount (insert b fuel kv s).2.events ≤ srCount s.events + 1 ∧
    ((insert b fuel kv s).1 = Except.ok ()
      → srCount (insert b fuel kv s).2.events = srCount s.events + 1) := by
  have acc0 : EvOK L s ∧ Quiet L s s := ⟨h, Quiet_refl L s⟩
  simp only [insert]
  cases hr : s.root with
  | none =>
    rw [get_root_bind_none hr]
    exact ins_err_leaf acc0
  | some root_offset =>
    rw [get_root_bind_some hr]
    cases hgp : s.pages.get? root_offset with
    | none =>
      rw [get_page_bind_none hgp]
      exact ins_err_leaf acc0
    | some root =>
      rw [get_page_bind_some hgp]
      cases hfl : is_node_full b root with
      | error e =>
        rw [liftE_bind_err]
        exact ins_err_leaf acc0
      | ok full =>
        rw [liftE_bind_ok, ite_app]
        by_cases hf : full = true
        · rw [if_pos hf]
          simp only [M_bind_assoc, M_pure_bind]
          set n0 : Node :=
            { node_type := NodeType.Internal [] [], is_root := true
              parent_offset := none } with hn0
          rw [write_page_bind]
          have acc1 := chain_wp acc0 n0
          have hnro : s.pages.length ∈ SEEN (wpSt s n0) := by
            rw [SEEN_wpSt]
            exact List.mem_cons_self _ _
          cases hsp : splitNode b
              { node_type := root.node_type, is_root := false
                parent_offset := some s.pages.length } with
          | error e =>
            rw [liftE_bind_err]
            exact ins_err_leaf acc1
          | ok ms =>
            rw [liftE_bind_ok, write_page_bind]
            have acc2 := chain_wp acc1 ms.2.1
            have hnro2 := mem_SEEN_Quiet (Quiet_wpSt acc1.1.2.1 ms.2.1) hnro
            rw [write_page_bind]
            have acc3 := chain_wp acc2 ms.2.2
            have hnro3 := mem_SEEN_Quiet (Quiet_wpSt acc2.1.2.1 ms.2.2) hnro2
            set nr : Node :=
              { node_type := NodeType.Internal
                  [(wpSt s n0).pages.length, (wpSt (wpSt s n0) ms.2.1).pages.length]
                  [ms.1]
                is_root := true
                parent_offset := none } with hnr
            rw [wpao_bind]
            by_cases hlt : s.pages.length
                < (wpSt (wpSt (wpSt s n0) ms.2.1) ms.2.2).pages.length
            · rw [if_pos hlt]
              have acc4 := chain_ow acc3 hnro3 nr
              have hnro4 := mem_SEEN_Quiet (Quiet_owSt acc3.1 hnro3 nr) hnro3
              rcases hinf : insert_non_full b fuel nr s.pages.length kv
                  (owSt (wpSt (wpSt (wpSt s n0) ms.2.1) ms.2.2) nr s.pages.length)
                  with ⟨res, s5⟩
              have hmast := inf_master b L fuel nr s.pages.length kv _ acc4.1 hnro4
              rw [hinf] at hmast
              have acc5 : EvOK L s5 ∧ Quiet L s s5 :=
                ⟨hmast.1, Quiet_trans acc4.2 hmast.2⟩
              cases res with
              | error e =>
                rw [run_bind_err hinf]
                exact ins_err_leaf acc5
              | ok u =>
                rw [run_bind_eq hinf, set_root_app]
                exact ins_ok_leaf acc5 _
            · rw [if_neg hlt]
              exact ins_err_leaf acc3
        · rw [if_neg hf]
          simp only [M_bind_assoc, M_pure_bind]
          rw [write_page_bind]
          have acc1 := chain_wp acc0 root
          have hnro : s.pages.length ∈ SEEN (wpSt s root) := by
            rw [SEEN_wpSt]
            exact List.mem_cons_self _ _
          rcases hinf : insert_non_full b fuel root s.pages.length kv (wpSt s root)
            with ⟨res, s5⟩
          have hmast := inf_master b L fuel root s.pages.length kv _ acc1.1 hnro
          rw [hinf] at hmast
          have acc5 : EvOK L s5 ∧ Quiet L s s5 :=
            ⟨hmast.1, Quiet_trans acc1.2 hmast.2⟩
          cases res with
          | error e =>
            rw [run_bind_err hinf]
            exact ins_err_leaf acc5
          | ok u =>
            rw [run_bind_eq hinf, set_root_app]
            exact ins_ok_leaf acc5 _

theorem PagesOK_wpSt {s : St} (hp : PagesOK s) {n : Node} (hn : NodeRef s n) :
    PagesOK (wpSt s n) := by
  intro o ho
  rw [SEEN_wpSt] at ho
  have hsuf : ∃ es, (wpSt s n).events = s.events ++ es :=
    ⟨[Ev.appended s.pages.length], rfl⟩
  rcases List.mem_cons.mp ho with h | h
  · subst h
    refine ⟨n, ?_, NodeRef_of_suffix hsuf hn⟩
    show (s.pages ++ [n]).get? s.pages.length = some n
    exact List.get?_concat_length _ _
  · obtain ⟨m, hm, hr⟩ := hp o h
    refine ⟨m, ?_, NodeRef_of_suffix hsuf hr⟩
    show (s.pages ++ [n]).get? o = some m
    rw [List.get?_append (List.get?_eq_some.mp hm).1]
    exact hm

theorem PagesOK_owSt {L : Nat} {s : St} (h : EvOK L s) (hp : PagesOK s)
    {o : Nat} (ho : o ∈ SEEN s) {n : Node} (hn : NodeRef s n) :
    PagesOK (owSt s n o) := by
  intro p hpm
  rw [SEEN_owSt] at hpm
  have hsuf : ∃ es, (owSt s n o).events = s.events ++ es :=
    ⟨[Ev.overwrote o], rfl⟩
  by_cases hpo : p = o
  · subst hpo
    refine ⟨n, ?_, NodeRef_of_suffix hsuf hn⟩
    show (s.pages.set p n).get? p = some n
    rw [List.get?_set_eq]
    have := (h.2.2 p ho).2
    rw [List.get?_eq_get this]
    rfl
  · obtain ⟨m, hm, hr⟩ := hp p hpm
    refine ⟨m, ?_, NodeRef_of_suffix hsuf hr⟩
    show (s.pages.set o n).get? p = some m
    rw [List.get?_set_ne _ _ (fun hq => hpo hq.symm)]
    exact hm

theorem PagesOK_srSt {s : St} (hp : PagesOK s) (o : Nat) :
    PagesOK (srSt s o) := by
  intro p hpm
  rw [SEEN_srSt] at hpm
  have hsuf : ∃ es, (srSt s o).events = s.events ++ es :=
    ⟨[Ev.setRoot o], rfl⟩
  obtain ⟨m, hm, hr⟩ := hp p hpm
  exact ⟨m, hm, NodeRef_of_suffix hsuf hr⟩

/-- A page read back from an offset appended by this operation has a usable
upward link. -/
theorem NodeRef_of_read {s : St} (hp : PagesOK s) {o : Nat} {n : Node}
    (ho : o ∈ SEEN s) (hgp : s.pages.get? o = some n) : NodeRef s n := by
  obtain ⟨m, hm, hr⟩ := hp o ho
  rw [hgp] at hm
  cases hm
  exact hr

/-- NodeRef only inspects the is_root flag and the parent offset. -/
theorem NodeRef_retype {s : St} {nt nt2 : NodeType} {ir : Bool} {po : Option Nat}
    (h : NodeRef s { node_type := nt, is_root := ir, parent_offset := po }) :
    NodeRef s { node_type := nt2, is_root := ir, parent_offset := po } := h

/-- BTree::merge keeps is_root and parent_offset of the first node. -/
theorem merge_fields {a c m : Node} (h : merge a c = Except.ok m) :
    m.is_root = a.is_root ∧ m.parent_offset = a.parent_offset := by
  unfold merge at h
  rcases a with ⟨nt, ir, po⟩
  cases nt with
  | Leaf pairs =>
    cases hc : c.node_type with
    | Leaf ps2 =>
      rw [hc] at h
      cases h
      exact ⟨rfl, rfl⟩
    | Internal cs ks =>
      rw [hc] at h
      cases h
    | Unexpected =>
      rw [hc] at h
      cases h
  | Internal cs ks =>
    cases hc : c.node_type with
    | Leaf ps2 =>
      rw [hc] at h
      cases h
    | Internal cs2 ks2 =>
      rw [hc] at h
      cases h
      exact ⟨rfl, rfl⟩
    | Unexpected =>
      rw [hc] at h
      cases h
  | Unexpected => cases h

/-- A node reported as underflowing is not a root. -/
theorem underflow_not_root {b : Nat} {node : Node}
    (h : is_node_underflow b node = Except.ok true) : node.is_root = false := by
  unfold is_node_underflow at h
  rcases node with ⟨nt, ir, po⟩
  cases nt with
  | Leaf pairs =>
    injection h with h2
    have := (Bool.and_eq_true _ _).mp h2
    simpa using this.2
  | Internal cs ks =>
    injection h with h2
    have := (Bool.and_eq_true _ _).mp h2
    simpa using this.2
  | Unexpected => cases h

theorem dchain_wp {L : Nat} {s0 s : St} (acc : DelOK L s ∧ Quiet L s0 s)
    {n : Node} (hn : NodeRef s n) :
    DelOK L (wpSt s n) ∧ Quiet L s0 (wpSt s n) :=
  ⟨⟨EvOK_wpSt acc.1.1 n, PagesOK_wpSt acc.1.2 hn⟩,
    Quiet_trans acc.2 (Quiet_wpSt acc.1.1.2.1 n)⟩

theorem dchain_ow {L : Nat} {s0 s : St} (acc : DelOK L s ∧ Quiet L s0 s)
    {o : Nat} (ho : o ∈ SEEN s) {n : Node} (hn : NodeRef s n) :
    DelOK L (owSt s n o) ∧ Quiet L s0 (owSt s n o) :=
  ⟨⟨EvOK_owSt acc.1.1 ho n, PagesOK_owSt acc.1.1 acc.1.2 ho hn⟩,
    Quiet_trans acc.2 (Quiet_owSt acc.1.1 ho n)⟩

theorem borpost_err {L : Nat} {s sX : St} {e : Error}
    (hne : e ≠ Error.KeyNotFound) (acc : DelOK L sX ∧ Quiet L s sX) :
    BorPost L s (Except.error e, sX) := by
  refine ⟨acc.1, acc.2.1, ?_, ?_⟩
  · show srCount sX.events ≤ srCount s.events + 1
    rw [acc.2.2.1]
    omega
  · intro hk
    exact hne (by injection hk)

theorem borpost_ok {L : Nat} {s sX : St} (acc : DelOK L sX ∧ Quiet L s sX) :
    BorPost L s (Except.ok (), sX) := by
  refine ⟨acc.1, acc.2.1, ?_, ?_⟩
  · show srCount sX.events ≤ srCount s.events + 1
    rw [acc.2.2.1]
    omega
  · intro hk
    cases hk

theorem borpost_sr {L : Nat} {s sX : St} (acc : DelOK L sX ∧ Quiet L s sX)
    (o : Nat) : BorPost L s (Except.ok (), srSt sX o) := by
  refine ⟨⟨EvOK_srSt acc.1.1 o, PagesOK_srSt acc.1.2 o⟩,
    Step_trans acc.2.1 (Step_srSt L sX o), ?_, ?_⟩
  · show srCount (srSt sX o).events ≤ srCount s.events + 1
    rw [srCount_srSt, acc.2.2.1]
  · intro hk
    cases hk

/-- Prefixing a quiet stretch onto a borrow post-relation. -/
theorem borpost_chain {L : Nat} {s s2 : St} (acc : DelOK L s2 ∧ Quiet L s s2)
    {r : Except Error Unit × St} (h : BorPost L s2 r) : BorPost L s r := by
  refine ⟨h.1, Step_trans acc.2.1 h.2.1, ?_, h.2.2.2⟩
  have := h.2.2.1
  rw [acc.2.2.1] at this
  exact this

theorem dkfspost_err {L : Nat} {s sX : St} {e : Error}
    (acc : DelOK L sX ∧ Quiet L s sX) :
    DkfsPost L s (Except.error e, sX) := by
  refine ⟨acc.1, acc.2.1, ?_, fun _ => acc.2⟩
  show srCount sX.events ≤ srCount s.events + 1
  rw [acc.2.2.1]
  omega

/-- The leaf branch hands the final result of delete_key_from_subtree to
borrow_if_needed, whose post-relation rules KeyNotFound out. -/
theorem dkfspost_of_bor {L : Nat} {s s2 : St} (acc : DelOK L s2 ∧ Quiet L s s2)
    {r : Except Error Unit × St} (h : BorPost L s2 r) : DkfsPost L s r := by
  refine ⟨h.1, Step_trans acc.2.1 h.2.1, ?_, fun hk => absurd hk h.2.2.2⟩
  have := h.2.2.1
  rw [acc.2.2.1] at this
  exact this

/-- Prefixing a quiet stretch onto a subtree-delete post-relation. -/
theorem dkfspost_chain {L : Nat} {s s2 : St} (acc : DelOK L s2 ∧ Quiet L s s2)
    {r : Except Error Unit × St} (h : DkfsPost L s2 r) : DkfsPost L s r := by
  refine ⟨h.1, Step_trans acc.2.1 h.2.1, ?_, fun hk => Quiet_trans acc.2 (h.2.2.2 hk)⟩
  have := h.2.2.1
  rw [acc.2.2.1] at this
  exact this

theorem vecRemove_err_eq {α : Type} {xs : List α} {i : Nat} {e : Error}
    (h : vecRemove xs i = Except.error e) : e = Error.Panic := by
  unfold vecRemove at h
  split at h
  · cases h
  · injection h with h2
    exact h2.symm

theorem vecInsert_err_eq {α : Type} {xs : List α} {i : Nat} {a : α} {e : Error}
    (h : vecInsert xs i a = Except.error e) : e = Error.Panic := by
  unfold vecInsert at h
  split at h
  · cases h
  · injection h with h2
    exact h2.symm

theorem merge_err_eq {a c : Node} {e : Error}
    (h : merge a c = Except.error e) : e = Error.UnexpectedError := by
  unfold merge at h
  rcases a with ⟨nt, ir, po⟩
  cases nt with
  | Leaf ps =>
    cases hc : c.node_type <;> rw [hc] at h
    · injection h with h2
      exact h2.symm
    · cases h
    · injection h with h2
      exact h2.symm
  | Internal cs ks =>
    cases hc : c.node_type <;> rw [hc] at h
    · cases h
    · injection h with h2
      exact h2.symm
    · injection h with h2
      exact h2.symm
  | Unexpected =>
    injection h with h2
    exact h2.symm

theorem underflow_err_eq {b : Nat} {node : Node} {e : Error}
    (h : is_node_underflow b node = Except.error e) :
    e = Error.UnexpectedError := by
  unfold is_node_underflow at h
  rcases node with ⟨nt, ir, po⟩
  cases nt with
  | Leaf ps => cases h
  | Internal cs ks => cases h
  | Unexpected =>
    injection h with h2
    exact h2.symm

/-- Master lemma for borrow_if_needed: from a state satisfying the delete
invariant, with a node whose upward link is usable, the upward repair walk
preserves the invariant, touches only fresh pages, calls set_root at most
once, and never returns KeyNotFound. -/
theorem borrow_master (b L : Nat) :
    ∀ (fuel : Nat) (node : Node) (key : Key) (s : St),
      DelOK L s → NodeRef s node →
      BorPost L s (borrow_if_needed b fuel node key s) := by
  intro fuel
  induction fuel with
  | zero =>
    intro node key s h hn
    exact borpost_err (by intro hx; cases hx) ⟨h, Quiet_refl L s⟩
  | succ fuel ih =>
    intro node key s h hn
    have acc0 : DelOK L s ∧ Quiet L s s := ⟨h, Quiet_refl L s⟩
    simp only [borrow_if_needed]
    cases huf : is_node_underflow b node with
    | error e =>
      rw [liftE_bind_err]
      rw [underflow_err_eq huf]
      exact borpost_err (by intro hx; cases hx) acc0
    | ok uf =>
      rw [liftE_bind_ok, ite_app]
      by_cases hufb : uf = true
      · rw [if_pos hufb]
        subst hufb
        have hir : node.is_root = false := underflow_not_root huf
        cases hpo : node.parent_offset with
        | none =>
          rw [okOr_bind_none]
          exact borpost_err (by intro hx; cases hx) acc0
        | some p =>
          rw [okOr_bind_some]
          have hpm : p ∈ SEEN s := by
            rcases hn with h1 | h1 | ⟨q, hq, hqm⟩
            · rw [hir] at h1
              cases h1
            · rw [hpo] at h1
              cases h1
            · rw [hpo] at hq
              cases hq
              exact hqm
          cases hgp : s.pages.get? p with
          | none =>
            rw [get_page_bind_none hgp]
            exact borpost_err (by intro hx; cases hx) acc0
          | some parent0 =>
            rw [get_page_bind_some hgp]
            have hpr : NodeRef s parent0 := NodeRef_of_read h.2 hpm hgp
            obtain ⟨pnt, pir, ppo⟩ := parent0
            cases pnt with
            | Leaf ps =>
              exact borpost_err (by intro hx; cases hx) acc0
            | Unexpected =>
              exact borpost_err (by intro hx; cases hx) acc0
            | Internal children keys =>
              simp only []
              set idx := unwrapIdx (binary_search_by (fun k => compare k key) keys)
                with hidx
              set sidx : Nat := if idx > 0 then idx - 1 else idx + 1 with hsidx
              cases hcs : children.get? sidx with
              | none =>
                rw [okOr_bind_none]
                exact borpost_err (by intro hx; cases hx) acc0
              | some soff =>
                rw [okOr_bind_some]
                cases hgs : s.pages.get? soff with
                | none =>
                  rw [get_page_bind_none hgs]
                  exact borpost_err (by intro hx; cases hx) acc0
                | some sibling =>
                  rw [get_page_bind_some hgs]
                  cases hmg : merge node sibling with
                  | error e =>
                    rw [liftE_bind_err, merge_err_eq hmg]
                    exact borpost_err (by intro hx; cases hx) acc0
                  | ok merged =>
                    rw [liftE_bind_ok, write_page_bind]
                    have hmref : NodeRef s merged := by
                      obtain ⟨hfr, hfp⟩ := merge_fields hmg
                      rcases hn with h1 | h1 | ⟨q, hq, hqm⟩
                      · rw [hir] at h1
                        cases h1
                      · rw [hpo] at h1
                        cases h1
                      · rw [hpo] at hq
                        cases hq
                        exact Or.inr (Or.inr ⟨p, by rw [hfp, hpo], hqm⟩)
                    have acc1 := dchain_wp acc0 hmref
                    have hmm : s.pages.length ∈ SEEN (wpSt s merged) := by
                      rw [SEEN_wpSt]
                      exact List.mem_cons_self _ _
                    have hpm1 : p ∈ SEEN (wpSt s merged) :=
                      mem_SEEN_Quiet acc1.2 hpm
                    cases hr1 : vecRemove children (min idx sidx) with
                    | error e =>
                      rw [liftE_bind_err, vecRemove_err_eq hr1]
                      exact borpost_err (by intro hx; cases hx) acc1
                    | ok c1 =>
                      rw [liftE_bind_ok]
                      cases hr2 : vecRemove c1.2 (min idx sidx) with
                      | error e =>
                        rw [liftE_bind_err, vecRemove_err_eq hr2]
                        exact borpost_err (by intro hx; cases hx) acc1
                      | ok c2 =>
                        rw [liftE_bind_ok, ite_app]
                        by_cases hcol : (pir && c2.2.isEmpty) = true
                        · rw [if_pos hcol, set_root_app]
                          exact borpost_sr acc1 _
                        · rw [if_neg hcol]
                          cases hr3 : vecRemove keys idx with
                          | error e =>
                            rw [liftE_bind_err, vecRemove_err_eq hr3]
                            exact borpost_err (by intro hx; cases hx) acc1
                          | ok k1 =>
                            rw [liftE_bind_ok]
                            cases hi3 : vecInsert c2.2 (min idx sidx)
                                s.pages.length with
                            | error e =>
                              rw [liftE_bind_err, vecInsert_err_eq hi3]
                              exact borpost_err (by intro hx; cases hx) acc1
                            | ok children3 =>
                              rw [liftE_bind_ok, wpao_bind]
                              by_cases hb1 : p < (wpSt s merged).pages.length
                              · rw [if_pos hb1]
                                have hp1ref : NodeRef (wpSt s merged)
                                    { node_type := NodeType.Internal children3 k1.2
                                      is_root := pir
                                      parent_offset := ppo } :=
                                  NodeRef_retype (NodeRef_of_suffix acc1.2.1.1 hpr)
                                have acc2 := dchain_ow acc1 hpm1 hp1ref
                                have hp2ref := NodeRef_of_suffix
                                  (Quiet_owSt acc1.1.1 hpm1
                                    { node_type := NodeType.Internal children3 k1.2
                                      is_root := pir
                                      parent_offset := ppo }).1.1 hp1ref
                                exact borpost_chain acc2
                                  (ih { node_type := NodeType.Internal children3 k1.2
                                        is_root := pir
                                        parent_offset := ppo } key _ acc2.1
                                    (NodeRef_retype hp2ref))
                              · rw [if_neg hb1]
                                exact borpost_err (by intro hx; cases hx) acc1
      · rw [if_neg hufb, pure_app]
        exact borpost_ok acc0

theorem throwE_bind {α β : Type} (e : Error) (f : α → M β) (s : St) :
    ((throwE e : M α) >>= f) s = (Except.error e, s) := rfl

theorem srCount_le_of_step {L : Nat} {s s' : St} (hs : Step L s s') :
    srCount s.events ≤ srCount s'.events := by
  obtain ⟨⟨es, he⟩, _, _⟩ := hs
  rw [he, srCount_append]
  omega

/-- Master lemma for delete_key_from_subtree: from a state satisfying the
delete invariant, descending into a node with a usable upward link at an
offset appended by this operation preserves the invariant, touches only
fresh pages, calls set_root at most once, and when it fails with KeyNotFound
no set_root happened and the committed root is unchanged. -/
theorem dkfs_master (b L : Nat) :
    ∀ (fuel : Nat) (key : Key) (node : Node) (noff : Nat) (s : St),
      DelOK L s → NodeRef s node → noff ∈ SEEN s →
      DkfsPost L s (delete_key_from_subtree b fuel key node noff s) := by
  intro fuel
  induction fuel with
  | zero =>
    intro key node noff s h hn hm
    exact dkfspost_err ⟨h, Quiet_refl L s⟩
  | succ fuel ih =>
    intro key node noff s h hn hm
    have acc0 : DelOK L s ∧ Quiet L s s := ⟨h, Quiet_refl L s⟩
    obtain ⟨nt, ir, po⟩ := node
    cases nt with
    | Leaf pairs =>
      simp only [delete_key_from_subtree]
      cases hbs : binary_search_by (fun p => compare p.key key) pairs with
      | error j =>
        simp only []
        rw [throwE_bind]
        exact dkfspost_err acc0
      | ok i =>
        simp only []
        rw [M_pure_bind]
        cases hvr : vecRemove pairs i with
        | error e =>
          rw [liftE_bind_err]
          exact dkfspost_err acc0
        | ok pr =>
          rw [liftE_bind_ok, wpao_bind]
          by_cases hlt : noff < s.pages.length
          · rw [if_pos hlt]
            have hn2 : NodeRef s
                { node_type := NodeType.Leaf pr.2, is_root := ir
                  parent_offset := po } := NodeRef_retype hn
            have acc1 := dchain_ow acc0 hm hn2
            have hn2b := NodeRef_of_suffix acc1.2.1.1 hn2
            exact dkfspost_of_bor acc1
              (borrow_master b L fuel
                { node_type := NodeType.Leaf pr.2, is_root := ir
                  parent_offset := po } key _ acc1.1 hn2b)
          · rw [if_neg hlt]
            exact dkfspost_err acc0
    | Internal children keys =>
      simp only [delete_key_from_subtree]
      cases hco : children.get?
          (unwrapIdx (binary_search_by (fun k => compare k key) keys)) with
      | none =>
        rw [okOr_bind_none]
        exact dkfspost_err acc0
      | some co =>
        rw [okOr_bind_some]
        cases hgp : s.pages.get? co with
        | none =>
          rw [get_page_bind_none hgp]
          exact dkfspost_err acc0
        | some child0 =>
          rw [get_page_bind_some hgp, write_page_bind]
          have hc1 : NodeRef s
              { node_type := child0.node_type, is_root := child0.is_root
                parent_offset := some noff } :=
            Or.inr (Or.inr ⟨noff, rfl, hm⟩)
          have acc1 := dchain_wp acc0 hc1
          have hm1 : noff ∈ SEEN (wpSt s
              { node_type := child0.node_type, is_root := child0.is_root
                parent_offset := some noff }) := mem_SEEN_Quiet acc1.2 hm
          have hnco : s.pages.length ∈ SEEN (wpSt s
              { node_type := child0.node_type, is_root := child0.is_root
                parent_offset := some noff }) := by
            rw [SEEN_wpSt]
            exact List.mem_cons_self _ _
          cases hvs : vecSet children
              (unwrapIdx (binary_search_by (fun k => compare k key) keys))
              s.pages.length with
          | error e =>
            rw [liftE_bind_err]
            exact dkfspost_err acc1
          | ok children2 =>
            rw [liftE_bind_ok, wpao_bind]
            by_cases hlt : noff < (wpSt s
                { node_type := child0.node_type, is_root := child0.is_root
                  parent_offset := some noff }).pages.length
            · rw [if_pos hlt]
              have hnode2 : NodeRef (wpSt s
                  { node_type := child0.node_type, is_root := child0.is_root
                    parent_offset := some noff })
                  { node_type := NodeType.Internal children2 keys
                    is_root := ir, parent_offset := po } :=
                NodeRef_retype (NodeRef_of_suffix acc1.2.1.1 hn)
              have acc2 := dchain_ow acc1 hm1 hnode2
              have hc2 := NodeRef_of_suffix acc2.2.1.1 hc1
              exact dkfspost_chain acc2
                (ih key
                  { node_type := child0.node_type, is_root := child0.is_root
                    parent_offset := some noff } s.pages.length _ acc2.1 hc2
                  (by
                    have := mem_SEEN_Quiet
                      (Quiet_owSt acc1.1.1 hm1
                        { node_type := NodeType.Internal children2 keys
                          is_root := ir, parent_offset := po }) hnco
                    exact this))
            · rw [if_neg hlt]
              exact dkfspost_err acc1
    | Unexpected =>
      simp only [delete_key_from_subtree]
      exact dkfspost_err acc0

/-- Master lemma for delete: from a state satisfying the delete invariant
whose committed root page carries the is_root flag, delete preserves the
invariant, touches only fresh pages, calls set_root once or twice when it
completes (at most twice otherwise), and leaves the committed root unchanged
when it fails with KeyNotFound. -/
theorem delete_master (b fuel : Nat) (key : Key) (L : Nat) (s : St)
    (h : DelOK L s)
    (hroot : ∀ r n, s.root = some r → s.pages.get? r = some n → n.is_root = true) :
    DelOK L (delete b fuel key s).2 ∧ Step L s (delete b fuel key s).2 ∧
    srCount (delete b fuel key s).2.events ≤ srCount s.events + 2 ∧
    ((delete b fuel key s).1 = Except.ok ()
      → srCount s.events + 1 ≤ srCount (delete b fuel key s).2.events) ∧
    ((delete b fuel key s).1 = Except.error Error.KeyNotFound
      → (delete b fuel key s).2.root = s.root) := by
  have acc0 : DelOK L s ∧ Quiet L s s := ⟨h, Quiet_refl L s⟩
  simp only [delete]
  cases hr : s.root with
  | none =>
    rw [get_root_bind_none hr]
    refine ⟨h, Step_refl L s, ?_, ?_, ?_⟩
    · show srCount s.events ≤ srCount s.events + 2
      omega
    · intro hok
      cases hok
    · intro hk
      exact hr
  | some r =>
    rw [get_root_bind_some hr]
    cases hgp : s.pages.get? r with
    | none =>
      rw [get_page_bind_none hgp]
      refine ⟨h, Step_refl L s, ?_, ?_, ?_⟩
      · show srCount s.events ≤ srCount s.events + 2
        omega
      · intro hok
        cases hok
      · intro hk
        exact hr
    | some root =>
      rw [get_page_bind_some hgp, write_page_bind]
      have hrootref : NodeRef s root := Or.inl (hroot r root hr hgp)
      have acc1 := dchain_wp acc0 hrootref
      have hm1 : s.pages.length ∈ SEEN (wpSt s root) := by
        rw [SEEN_wpSt]
        exact List.mem_cons_self _ _
      rcases hd : delete_key_from_subtree b fuel key root s.pages.length (wpSt s root)
        with ⟨res, s5⟩
      have hmast := dkfs_master b L fuel key root s.pages.length _ acc1.1
        (NodeRef_of_suffix acc1.2.1.1 hrootref) hm1
      rw [hd] at hmast
      cases res with
      | error e =>
        rw [run_bind_err hd]
        refine ⟨hmast.1, Step_trans acc1.2.1 hmast.2.1, ?_, ?_, ?_⟩
        · show srCount s5.events ≤ srCount s.events + 2
          have h1 : srCount s5.events ≤ srCount (wpSt s root).events + 1 :=
            hmast.2.2.1
          rw [acc1.2.2.1] at h1
          omega
        · intro hok
          cases hok
        · intro hk
          injection hk with hk2
          subst hk2
          have hq := hmast.2.2.2 rfl
          have hq2 : s5.root = (wpSt s root).root := hq.2.2
          show s5.root = some r
          rw [hq2]
          exact hr
      | ok u =>
        rw [run_bind_eq hd, set_root_app]
        have hle : srCount s5.events ≤ srCount s.events + 1 := by
          have h1 : srCount s5.events ≤ srCount (wpSt s root).events + 1 :=
            hmast.2.2.1
          rw [acc1.2.2.1] at h1
          exact h1
        have hge : srCount s.events ≤ srCount s5.events := by
          have h2 : srCount (wpSt s root).events ≤ srCount s5.events :=
            srCount_le_of_step hmast.2.1
          rw [acc1.2.2.1] at h2
          exact h2
        refine ⟨⟨EvOK_srSt hmast.1.1 _, PagesOK_srSt hmast.1.2 _⟩,
          Step_trans acc1.2.1 (Step_trans hmast.2.1 (Step_srSt L s5 _)), ?_, ?_, ?_⟩
        · show srCount (srSt s5 s.pages.length).events ≤ srCount s.events + 2
          rw [srCount_srSt]
          omega
        · intro _
          show srCount s.events + 1 ≤ srCount (srSt s5 s.pages.length).events
          rw [srCount_srSt]
          omega
        · intro hk
          cases hk

/-- search_node never modifies the state: it only reads pages. -/
theorem search_node_pure :
    ∀ (fuel : Nat) (node : Node) (key : Key) (s : St),
      (search_node fuel node key s).2 = s := by
  intro fuel
  induction fuel with
  | zero =>
    intro node key s
    rfl
  | succ fuel ih =>
    intro node key s
    obtain ⟨nt, ir, po⟩ := node
    cases nt with
    | Internal children keys =>
      simp only [search_node]
      cases hco : children.get?
          (unwrapIdx (binary_search_by (fun k => compare k key) keys)) with
      | none =>
        rw [okOr_bind_none]
      | some co =>
        rw [okOr_bind_some]
        cases hgp : s.pages.get? co with
        | none =>
          rw [get_page_bind_none hgp]
        | some child =>
          rw [get_page_bind_some hgp]
          exact ih child key s
    | Leaf pairs =>
      simp only [search_node]
      cases hbs : binary_search_by (fun p => compare p.key key) pairs with
      | error j => rfl
      | ok i =>
        simp only []
        unfold okOr
        cases pairs.get? i <;> rfl
    | Unexpected => rfl

/-- search never modifies the state. -/
theorem search_pure (fuel : Nat) (key : Key) (s : St) :
    (search fuel key s).2 = s := by
  simp only [search]
  cases hr : s.root with
  | none => rw [get_root_bind_none hr]
  | some r =>
    rw [get_root_bind_some hr]
    cases hgp : s.pages.get? r with
    | none => rw [get_page_bind_none hgp]
    | some root =>
      rw [get_page_bind_some hgp]
      exact search_node_pure fuel root key s

/-- An element looked up by getD with a default drawn from the list is a
member of the list. -/
theorem getD_mem {α : Type} {xs : List α} {d : α} (hd : d ∈ xs) (i : Nat) :
    xs.getD i d ∈ xs := by
  by_cases h : i < xs.length
  · rw [List.getD_eq_get _ _ h]
    exact xs.get_mem _ _
  · rw [List.getD_eq_default _ _ (Nat.le_of_not_lt h)]
    exact hd

/-- A binary-search hit certifies that an element of the list compares equal
to the target. -/
theorem bs_ok_mem {α : Type} (kf : α → Nat) (t : Nat) (xs : List α) {i : Nat}
    (h : binary_search_by (fun e => compare (kf e) t) xs = Except.ok i) :
    ∃ e ∈ xs, kf e = t := by
  unfold binary_search_by at h
  cases xs with
  | nil => cases h
  | cons x rest =>
    simp only [] at h
    set base := bsLoop (fun e => compare (kf e) t) (x :: rest) x
      (x :: rest).length 0 (x :: rest).length with hbase
    cases hcmp : compare (kf ((x :: rest).getD base x)) t with
    | eq =>
      refine ⟨(x :: rest).getD base x, getD_mem (List.mem_cons_self x rest) base, ?_⟩
      exact Nat.compare_eq_eq.mp hcmp
    | lt =>
      rw [hcmp] at h
      cases h
    | gt =>
      rw [hcmp] at h
      cases h

set_option maxHeartbeats 1000000 in
/-- C5: the copy-on-write discipline holds.  From any state with an empty
ghost trace whose committed root page carries the is_root flag, both insert
and delete produce traces in which every offset passed to
write_page_at_offset was previously returned by write_page within the same
operation (cowOK), and every overwritten offset is at least the starting
file length, so no page present before the operation — in particular none
reachable from the previously committed root — is ever overwritten in
place. -/
theorem claim_C5 (b fuel : Nat) (kv : KeyValuePair) (key : Key) (s : St)
    (h0 : s.events = [])
    (hroot : ∀ r n, s.root = some r → s.pages.get? r = some n → n.is_root = true) :
    (cowOK [] (insert b fuel kv s).2.events = true ∧
      ∀ o, Ev.overwrote o ∈ (insert b fuel kv s).2.events → s.pages.length ≤ o) ∧
    (cowOK [] (delete b fuel key s).2.events = true ∧
      ∀ o, Ev.overwrote o ∈ (delete b fuel key s).2.events → s.pages.length ≤ o) := by
  have hEv : EvOK s.pages.length s := EvOK_init h0
  have hDel : DelOK s.pages.length s := by
    refine ⟨hEv, ?_⟩
    intro o ho
    rw [SEEN, h0] at ho
    cases ho
  constructor
  · have hm := insert_master b fuel kv s.pages.length s hEv
    exact ⟨hm.1.1, fun o ho => overwrote_ge hm.1 ho⟩
  · have hm := delete_master b fuel key s.pages.length s hDel hroot
    exact ⟨hm.1.1.1, fun o ho => overwrote_ge hm.1.1 ho⟩

/-- Witness for C5 on the freshly built store. -/
theorem claim_C5_witness :
    (cowOK [] (insert 2 9 { key := 5, value := "a" } initSt).2.events = true ∧
      ∀ o, Ev.overwrote o ∈ (insert 2 9 { key := 5, value := "a" } initSt).2.events
        → initSt.pages.length ≤ o) ∧
    (cowOK [] (delete 2 9 7 initSt).2.events = true ∧
      ∀ o, Ev.overwrote o ∈ (delete 2 9 7 initSt).2.events
        → initSt.pages.length ≤ o) :=
  claim_C5 2 9 { key := 5, value := "a" } 7 initSt rfl
    (by
      intro r n hr hgp
      simp only [initSt] at hr hgp
      injection hr with h
      subst h
      simp only [List.get?] at hgp
      injection hgp with h2
      subst h2
      rfl)

set_option maxHeartbeats 1000000 in
/-- C6 (amended): every completed insert calls set_root exactly once; every
completed delete calls set_root once or twice — twice exactly when the
root-collapse branch of borrow_if_needed also called set_root, whose effect
the final call in delete overrides.  Stated over any starting state with an
empty ghost trace whose committed root page carries the is_root flag. -/
theorem claim_C6 (b fuel : Nat) (kv : KeyValuePair) (key : Key) (s : St)
    (h0 : s.events = [])
    (hroot : ∀ r n, s.root = some r → s.pages.get? r = some n → n.is_root = true) :
    ((insert b fuel kv s).1 = Except.ok ()
      → srCount (insert b fuel kv s).2.events = 1) ∧
    ((delete b fuel key s).1 = Except.ok ()
      → srCount (delete b fuel key s).2.events = 1 ∨
        srCount (delete b fuel key s).2.events = 2) := by
  have hEv : EvOK s.pages.length s := EvOK_init h0
  have hDel : DelOK s.pages.length s := by
    refine ⟨hEv, ?_⟩
    intro o ho
    rw [SEEN, h0] at ho
    cases ho
  have hz : srCount s.events = 0 := by
    rw [h0]
    rfl
  constructor
  · intro hok
    have hm := (insert_master b fuel kv s.pages.length s hEv).2.2.2 hok
    rw [hz] at hm
    exact hm
  · intro hok
    have hm := delete_master b fuel key s.pages.length s hDel hroot
    have h1 := hm.2.2.1
    have h2 := hm.2.2.2.1 hok
    rw [hz] at h1 h2
    omega

/-- Witness for C6 on the freshly built store: a completed insert and a
completed delete of the inserted key. -/
theorem claim_C6_witness :
    ((insert 2 9 { key := 5, value := "a" } initSt).1 = Except.ok ()
      → srCount (insert 2 9 { key := 5, value := "a" } initSt).2.events = 1) ∧
    ((delete 2 9 7 initSt).1 = Except.ok ()
      → srCount (delete 2 9 7 initSt).2.events = 1 ∨
        srCount (delete 2 9 7 initSt).2.events = 2) :=
  claim_C6 2 9 { key := 5, value := "a" } 7 initSt rfl
    (by
      intro r n hr hgp
      simp only [initSt] at hr hgp
      injection hr with h
      subst h
      simp only [List.get?] at hgp
      injection hgp with h2
      subst h2
      rfl)

/-- Running a bound whose first component at this state is an error
propagates that error as the first component of the bound run. -/
theorem run_bind_fst_err {α β : Type} {x : M α} {s : St} {e : Error}
    (hx : (x s).1 = Except.error e) (f : α → M β) :
    ((x >>= f) s).1 = Except.error e := by
  rw [bind_app]
  rcases hxs : x s with ⟨r, s1⟩
  rw [hxs] at hx
  simp only [] at hx
  subst hx
  rfl

set_option maxHeartbeats 1000000 in
/-- delete_key_from_subtree on a key whose descent path (computed over the
pre-operation page file) ends at a leaf, when the key is absent from every
leaf of that file, fails with KeyNotFound — at any depth.  The state
hypotheses say the operation so far only appended pages and overwrote
fresh offsets, which the descent preserves. -/
theorem dkfs_miss (b : Nat) (s0 : St) (key : Key) :
    ∀ (fuel : Nat) (node : Node) (noff : Nat) (s : St),
      pathTo s0.pages key fuel node.node_type →
      keyAbsent s0.pages key →
      leafMiss key node.node_type →
      s0.pages.length ≤ s.pages.length →
      (∀ o, o < s0.pages.length → s.pages.get? o = s0.pages.get? o) →
      noff < s.pages.length →
      s0.pages.length ≤ noff →
      (delete_key_from_subtree b fuel key node noff s).1
        = Except.error Error.KeyNotFound := by
  intro fuel
  induction fuel with
  | zero =>
    intro node noff s hpath _ _ _ _ _ _
    exact hpath.elim
  | succ fuel ih =>
    intro node noff s hpath habs hself hL hst hnoff hnge
    obtain ⟨nt, ir, po⟩ := node
    cases nt with
    | Unexpected => exact hpath.elim
    | Leaf pairs =>
      simp only [delete_key_from_subtree]
      cases hbs : binary_search_by (fun p => compare p.key key) pairs with
      | ok i =>
        exfalso
        obtain ⟨e, hem, hek⟩ := bs_ok_mem KeyValuePair.key key pairs hbs
        exact hself (hek ▸ List.mem_map_of_mem KeyValuePair.key hem)
      | error j =>
        simp only []
        rw [throwE_bind]
    | Internal children keys =>
      obtain ⟨co, child, hco, hchild, hrec⟩ := hpath
      have hwlen : ∀ n : Node, (wpSt s n).pages.length = s.pages.length + 1 := by
        intro n
        show (s.pages ++ [n]).length = _
        rw [List.length_append]
        rfl
      have hoslen : ∀ (n1 n2 : Node) (o : Nat),
          (owSt (wpSt s n1) n2 o).pages.length = s.pages.length + 1 := by
        intro n1 n2 o
        show ((s.pages ++ [n1]).set o n2).length = _
        rw [List.length_set, List.length_append]
        rfl
      have hosget : ∀ (n1 n2 : Node) (o1 o : Nat), s0.pages.length ≤ o1 →
          o < s0.pages.length →
          (owSt (wpSt s n1) n2 o1).pages.get? o = s.pages.get? o := by
        intro n1 n2 o1 o ho1 ho
        show ((s.pages ++ [n1]).set o1 n2).get? o = _
        rw [List.get?_set_ne _ _ (by omega)]
        rw [List.get?_append (by omega)]
      simp only [delete_key_from_subtree]
      rw [hco, okOr_bind_some]
      have hcoL : co < s0.pages.length := (List.get?_eq_some.mp hchild).1
      have hgc : s.pages.get? co = some child := by
        rw [hst co hcoL]
        exact hchild
      rw [get_page_bind_some hgc]
      rw [write_page_bind]
      have hni : unwrapIdx (binary_search_by (fun k => compare k key) keys)
          < children.length := (List.get?_eq_some.mp hco).1
      have hvs : vecSet children
          (unwrapIdx (binary_search_by (fun k => compare k key) keys))
          s.pages.length
          = Except.ok (children.set
              (unwrapIdx (binary_search_by (fun k => compare k key) keys))
              s.pages.length) := by
        unfold vecSet
        rw [if_pos hni]
      rw [hvs, liftE_bind_ok]
      rw [wpao_bind]
      rw [if_pos (by rw [hwlen]; omega)]
      apply ih
      · exact hrec
      · exact habs
      · exact habs child (List.get?_mem hchild)
      · rw [hoslen]
        omega
      · intro o ho
        rw [hosget _ _ _ _ hnge ho]
        exact hst o ho
      · rw [hoslen]
        omega
      · omega

/-- BTree::delete of a key absent from the tree (no leaf page carries it and
the descent path for it exists) fails with KeyNotFound. -/
theorem delete_absent (b fuel : Nat) (key : Key) (s : St) (r : Nat)
    (root : Node)
    (hr : s.root = some r) (hgp : s.pages.get? r = some root)
    (hpath : pathTo s.pages key fuel root.node_type)
    (habs : keyAbsent s.pages key) :
    (delete b fuel key s).1 = Except.error Error.KeyNotFound := by
  simp only [delete]
  rw [get_root_bind_some hr, get_page_bind_some hgp, write_page_bind]
  refine run_bind_fst_err ?_ _
  refine dkfs_miss b s key fuel root s.pages.length (wpSt s root) hpath habs
    (habs root (List.get?_mem hgp)) ?_ ?_ ?_ ?_
  · show s.pages.length ≤ (s.pages ++ [root]).length
    rw [List.length_append]
    show s.pages.length ≤ s.pages.length + 1
    omega
  · intro o ho
    show (s.pages ++ [root]).get? o = _
    rw [List.get?_append ho]
  · show s.pages.length < (s.pages ++ [root]).length
    rw [List.length_append]
    show s.pages.length < s.pages.length + 1
    omega
  · exact Nat.le_refl _

/-- search_node on a key whose descent path ends at a leaf, when the key is
absent from every leaf of the file, fails with KeyNotFound. -/
theorem search_node_miss (s : St) (key : Key) :
    ∀ (fuel : Nat) (node : Node),
      pathTo s.pages key fuel node.node_type →
      keyAbsent s.pages key →
      leafMiss key node.node_type →
      (search_node fuel node key s).1 = Except.error Error.KeyNotFound := by
  intro fuel
  induction fuel with
  | zero =>
    intro node hpath _ _
    exact hpath.elim
  | succ fuel ih =>
    intro node hpath habs hself
    obtain ⟨nt, ir, po⟩ := node
    cases nt with
    | Unexpected => exact hpath.elim
    | Leaf pairs =>
      simp only [search_node]
      cases hbs : binary_search_by (fun p => compare p.key key) pairs with
      | ok i =>
        exfalso
        obtain ⟨e, hem, hek⟩ := bs_ok_mem KeyValuePair.key key pairs hbs
        exact hself (hek ▸ List.mem_map_of_mem KeyValuePair.key hem)
      | error j => rfl
    | Internal children keys =>
      obtain ⟨co, child, hco, hchild, hrec⟩ := hpath
      simp only [search_node]
      rw [hco, okOr_bind_some]
      rw [get_page_bind_some hchild]
      exact ih child hrec habs (habs child (List.get?_mem hchild))

/-- BTree::search of a key absent from the tree fails with KeyNotFound. -/
theorem search_absent (fuel : Nat) (key : Key) (s : St) (r : Nat) (root : Node)
    (hr : s.root = some r) (hgp : s.pages.get? r = some root)
    (hpath : pathTo s.pages key fuel root.node_type)
    (habs : keyAbsent s.pages key) :
    (search fuel key s).1 = Except.error Error.KeyNotFound := by
  simp only [search]
  rw [get_root_bind_some hr, get_page_bind_some hgp]
  exact search_node_miss s key fuel root hpath habs
    (habs root (List.get?_mem hgp))

set_option maxHeartbeats 1000000 in
/-- C9: error handling of absent keys.  First, deleting a key that is absent
from the tree — no leaf page of the file carries it and the descent path the
engine follows for it exists — fails with KeyNotFound, at any tree depth.
Second, whenever delete fails with KeyNotFound (from any state with an
empty ghost trace whose committed root page carries the is_root flag), the
committed root offset and every page present before the operation are
unchanged, so the committed tree visible to subsequent operations is
unchanged.  Third, a search for such an absent key also fails with
KeyNotFound, and search never alters the state at all. -/
theorem claim_C9 :
    (∀ (b fuel : Nat) (key : Key) (s : St) (r : Nat) (root : Node),
      s.root = some r → s.pages.get? r = some root →
      pathTo s.pages key fuel root.node_type →
      keyAbsent s.pages key →
      (delete b fuel key s).1 = Except.error Error.KeyNotFound) ∧
    (∀ (b fuel : Nat) (key : Key) (s : St),
      s.events = [] →
      (∀ r n, s.root = some r → s.pages.get? r = some n → n.is_root = true) →
      (delete b fuel key s).1 = Except.error Error.KeyNotFound →
      (delete b fuel key s).2.root = s.root ∧
        ∀ o, o < s.pages.length
          → (delete b fuel key s).2.pages.get? o = s.pages.get? o) ∧
    (∀ (fuel : Nat) (key : Key) (s : St) (r : Nat) (root : Node),
      s.root = some r → s.pages.get? r = some root →
      pathTo s.pages key fuel root.node_type →
      keyAbsent s.pages key →
      (search fuel key s).1 = Except.error Error.KeyNotFound) ∧
    (∀ (fuel : Nat) (key : Key) (s : St), (search fuel key s).2 = s) := by
  refine ⟨?_, ?_, ?_, search_pure⟩
  · intro b fuel key s r root hr hgp hpath habs
    exact delete_absent b fuel key s r root hr hgp hpath habs
  · intro b fuel key s h0 hroot hk
    have hEv : EvOK s.pages.length s := EvOK_init h0
    have hDel : DelOK s.pages.length s := by
      refine ⟨hEv, ?_⟩
      intro o ho
      rw [SEEN, h0] at ho
      cases ho
    have hm := delete_master b fuel key s.pages.length s hDel hroot
    exact ⟨hm.2.2.2.2 hk, fun o ho => hm.2.1.2.1 o ho⟩
  · intro fuel key s r root hr hgp hpath habs
    exact search_absent fuel key s r root hr hgp hpath habs

/-- Witness for C9 at concrete inputs: deleting and searching the absent
key 7 in a committed two-level tree. -/
theorem claim_C9_witness :
    (delete 2 9 7 twoLevelSt).1 = Except.error Error.KeyNotFound ∧
    ((delete 2 9 7 twoLevelSt).2.root = twoLevelSt.root ∧
      ∀ o, o < twoLevelSt.pages.length
        → (delete 2 9 7 twoLevelSt).2.pages.get? o = twoLevelSt.pages.get? o) ∧
    (search 9 7 twoLevelSt).1 = Except.error Error.KeyNotFound ∧
    (search 9 7 twoLevelSt).2 = twoLevelSt := by
  have hroot : ∀ r n, twoLevelSt.root = some r
      → twoLevelSt.pages.get? r = some n → n.is_root = true := by
    intro r n hr hgp
    simp only [twoLevelSt] at hr hgp
    injection hr with h
    subst h
    simp only [List.get?] at hgp
    injection hgp with h2
    subst h2
    rfl
  have habs : keyAbsent twoLevelSt.pages 7 := by
    intro n hn
    simp only [twoLevelSt] at hn
    simp at hn
    rcases hn with rfl | rfl | rfl
    · exact True.intro
    · show (7 : Key) ∉ ([{ key := 5, value := "x" }] :
        List KeyValuePair).map KeyValuePair.key
      decide
    · show (7 : Key) ∉ ([{ key := 10, value := "y" }] :
        List KeyValuePair).map KeyValuePair.key
      decide
  have hpath : pathTo twoLevelSt.pages 7 9
      ({ node_type := NodeType.Internal [1, 2] [10], is_root := true,
         parent_offset := none } : Node).node_type :=
    ⟨1, { node_type := NodeType.Leaf [{ key := 5, value := "x" }],
          is_root := false, parent_offset := some 0 }, rfl, rfl, True.intro⟩
  have h1 := claim_C9.1 2 9 7 twoLevelSt 0 _ rfl rfl hpath habs
  refine ⟨h1, claim_C9.2.1 2 9 7 twoLevelSt rfl hroot h1,
    claim_C9.2.2.1 9 7 twoLevelSt 0 _ rfl rfl hpath habs,
    claim_C9.2.2.2 9 7 twoLevelSt⟩

/-! ### Claim theorems on concrete runs -/

/-! ### Step lemmas recomputing each pinned state from its predecessor -/

/-- Step 1 of the b = 2 collapse scenario. -/
theorem c3_step1 :
    applyOp 2 20 (Op.ins 10 "a") { initSt with events := [] } = (Except.ok (), c3s1) :=
  rfl

/-- Step 2 of the b = 2 collapse scenario. -/
theorem c3_step2 :
    applyOp 2 20 (Op.ins 20 "b") { c3s1 with events := [] } = (Except.ok (), c3s2) :=
  rfl

/-- Step 3 of the b = 2 collapse scenario. -/
theorem c3_step3 :
    applyOp 2 20 (Op.ins 30 "c") { c3s2 with events := [] } = (Except.ok (), c3s3) :=
  rfl

/-- Step 4 of the b = 2 collapse scenario. -/
theorem c3_step4 :
    applyOp 2 20 (Op.ins 40 "d") { c3s3 with events := [] } = (Except.ok (), c3s4) :=
  rfl

/-- Step 5 of the b = 2 collapse scenario. -/
theorem c3_step5 :
    applyOp 2 20 (Op.ins 50 "e") { c3s4 with events := [] } = (Except.ok (), c3s5) :=
  rfl

/-- Step 6 of the b = 2 collapse scenario. -/
theorem c3_step6 :
    applyOp 2 20 (Op.del 10) { c3s5 with events := [] } = (Except.ok (), c3s6) :=
  rfl

/-- Step 7 of the b = 2 collapse scenario. -/
theorem c3_step7 :
    applyOp 2 20 (Op.del 20) { c3s6 with events := [] } = (Except.ok (), c3s7) :=
  rfl

/-- Step 1 of the b = 3 scenarios. -/
theorem ps_step1 :
    applyOp 3 20 (Op.ins 10 "a") { initSt with events := [] } = (Except.ok (), ps1) :=
  rfl

/-- Step 2 of the b = 3 scenarios. -/
theorem ps_step2 :
    applyOp 3 20 (Op.ins 20 "b") { ps1 with events := [] } = (Except.ok (), ps2) :=
  rfl

/-- Step 3 of the b = 3 scenarios. -/
theorem ps_step3 :
    applyOp 3 20 (Op.ins 30 "c") { ps2 with events := [] } = (Except.ok (), ps3) :=
  rfl

/-- Step 4 of the b = 3 scenarios. -/
theorem ps_step4 :
    applyOp 3 20 (Op.ins 40 "d") { ps3 with events := [] } = (Except.ok (), ps4) :=
  rfl

/-- Step 5 of the b = 3 scenarios. -/
theorem ps_step5 :
    applyOp 3 20 (Op.ins 50 "e") { ps4 with events := [] } = (Except.ok (), ps5) :=
  rfl

/-- Step 6 of the b = 3 scenarios. -/
theorem ps_step6 :
    applyOp 3 20 (Op.ins 60 "f") { ps5 with events := [] } = (Except.ok (), ps6) :=
  rfl

/-- Step 7 of the b = 3 scenarios. -/
theorem ps_step7 :
    applyOp 3 20 (Op.ins 70 "g") { ps6 with events := [] } = (Except.ok (), ps7) :=
  rfl

/-- Step 8 of the b = 3 scenarios. -/
theorem ps_step8 :
    applyOp 3 20 (Op.ins 80 "h") { ps7 with events := [] } = (Except.ok (), ps8) :=
  rfl

/-- Step 9 of the b = 3 scenarios. -/
theorem ps_step9 :
    applyOp 3 20 (Op.ins 90 "i") { ps8 with events := [] } = (Except.ok (), ps9) :=
  rfl

/-- Step 10 of the b = 3 scenarios. -/
theorem ps_step10 :
    applyOp 3 20 (Op.ins 100 "j") { ps9 with events := [] } = (Except.ok (), ps10) :=
  rfl

/-- Step 11 of the b = 3 scenarios. -/
theorem ps_step11 :
    applyOp 3 20 (Op.del 100) { ps10 with events := [] } = (Except.ok (), ps11) :=
  rfl

/-- Step 12 of the b = 3 scenarios. -/
theorem ps_step12 :
    applyOp 3 20 (Op.del 90) { ps11 with events := [] } = (Except.ok (), ps12) :=
  rfl

/-- Step 11 of the b = 3 separator scenario: delete 50 after the ten inserts. -/
theorem qs_step11 :
    applyOp 3 20 (Op.del 50) { ps10 with events := [] } = (Except.ok (), qs11) :=
  rfl


/-- C1: the round-trip claim fails on the code.  With b = 2, from a fresh
tree, insert (5, "a") then (5, "b"): both inserts complete, key 5 is never
deleted, and the last-inserted value for key 5 is "b" — yet search returns
the pair (5, "a").  The leaf branch of insert_non_full inserts a duplicate
pair at the binary-search position instead of updating, so the leaf holds
both pairs and search lands on the first-inserted one. -/
theorem claim_C1 :
    (runTrace 2 20 dupOps initSt).1 = [Except.ok (), Except.ok ()] ∧
    (search 20 5 (runTrace 2 20 dupOps initSt).2).1
      = Except.ok { key := 5, value := "a" } :=
  ⟨rfl, rfl⟩

/-- C2: the absence claim fails on the code.  With b = 2, from a fresh tree,
insert (5, "a"), insert (5, "b"), then delete 5: all three operations
complete, key 5 is deleted and never re-inserted, yet a subsequent search
returns Ok (5, "b") instead of KeyNotFound, because the duplicate insert left
two pairs with key 5 and delete removed only one of them. -/
theorem claim_C2 :
    (runTrace 2 20 (dupOps ++ [Op.del 5]) initSt).1
      = [Except.ok (), Except.ok (), Except.ok ()] ∧
    (search 20 5 (runTrace 2 20 (dupOps ++ [Op.del 5]) initSt).2).1
      = Except.ok { key := 5, value := "b" } :=
  ⟨rfl, rfl⟩

set_option maxHeartbeats 1000000 in
/-- C3: the occupancy claim fails on the code.  With b = 2, the seven
operations of collapseOps all complete, and the committed tree afterwards
has root page 11, an internal node with children [12, 8]; its first child,
page 12, is a non-root leaf holding 0 pairs, below the claimed lower bound
b - 1 = 1.  The root-collapse branch of borrow_if_needed published the merged
node with set_root, but delete then re-published the pre-collapse root copy
with its final set_root, leaving the emptied leaf in the committed tree. -/
theorem claim_C3 :
    (runTrace 2 20 collapseOps initSt).1
      = [Except.ok (), Except.ok (), Except.ok (), Except.ok (), Except.ok (),
         Except.ok (), Except.ok ()] ∧
    (runTrace 2 20 collapseOps initSt).2.root = some 11 ∧
    (runTrace 2 20 collapseOps initSt).2.pages.get? 11
      = some { node_type := NodeType.Internal [12, 8] [30]
               is_root := true
               parent_offset := none } ∧
    (runTrace 2 20 collapseOps initSt).2.pages.get? 12
      = some { node_type := NodeType.Leaf []
               is_root := false
               parent_offset := some 11 } := by
  have h : runTrace 2 20 collapseOps initSt
      = ([Except.ok (), Except.ok (), Except.ok (), Except.ok (), Except.ok (),
          Except.ok (), Except.ok ()], c3s7) := by
    simp only [collapseOps, runTrace, c3_step1, c3_step2, c3_step3, c3_step4,
      c3_step5, c3_step6, c3_step7]
  rw [h]
  exact ⟨rfl, rfl, rfl, rfl⟩

/-- C4 counterexample: merging two internal siblings does not re-insert the
separator.  Concretely, merging an internal node with children [100, 101] and
keys [5] into one with children [102, 103] and keys [15] yields children
[100, 101, 102, 103] and keys [5, 15]: the merged node has 4 children but
2 + 1 = 3 is required by the claim, and no separator was inserted at position
1 = |first.keys|. -/
theorem claim_C4_counterexample :
    merge
      { node_type := NodeType.Internal [100, 101] [5]
        is_root := false
        parent_offset := some 7 }
      { node_type := NodeType.Internal [102, 103] [15]
        is_root := false
        parent_offset := some 7 }
      = Except.ok
          { node_type := NodeType.Internal [100, 101, 102, 103] [5, 15]
            is_root := false
            parent_offset := some 7 } ∧
    [100, 101, 102, 103].length ≠ [5, 15].length + 1 :=
  ⟨rfl, by decide⟩

/-- C4 (amended): when two internal sibling nodes are merged, the separator
key from the parent is not re-inserted; the merged node concatenates the two
child sequences and the two key sequences directly, keeping is_root and
parent_offset of the first node, so whenever both inputs satisfy
|children| = |keys| + 1 the merged node satisfies |children| = |keys| + 2. -/
theorem claim_C4 (c1 : List Nat) (k1 : List Key) (c2 : List Nat) (k2 : List Key)
    (r1 r2 : Bool) (p1 p2 : Option Nat)
    (h1 : c1.length = k1.length + 1) (h2 : c2.length = k2.length + 1) :
    merge
      { node_type := NodeType.Internal c1 k1, is_root := r1, parent_offset := p1 }
      { node_type := NodeType.Internal c2 k2, is_root := r2, parent_offset := p2 }
      = Except.ok
          { node_type := NodeType.Internal (c1 ++ c2) (k1 ++ k2)
            is_root := r1
            parent_offset := p1 } ∧
    (c1 ++ c2).length = (k1 ++ k2).length + 2 := by
  refine ⟨rfl, ?_⟩
  simp [List.length_append, h1, h2]
  omega

/-- Witness for C4 at a concrete input: two internal siblings with one key
and two children each. -/
theorem claim_C4_witness :
    merge
      { node_type := NodeType.Internal [31, 32] [9]
        is_root := true
        parent_offset := none }
      { node_type := NodeType.Internal [33, 34] [11]
        is_root := false
        parent_offset := some 3 }
      = Except.ok
          { node_type := NodeType.Internal [31, 32, 33, 34] [9, 11]
            is_root := true
            parent_offset := none } ∧
    [31, 32, 33, 34].length = [9, 11].length + 2 :=
  claim_C4 [31, 32] [9] [33, 34] [11] true false none (some 3) rfl rfl

set_option maxHeartbeats 1000000 in
/-- C10: delete can panic on a reachable state and a present key.  With
b = 3, the twelve operations of panicPre all complete and leave the rightmost
leaf holding the single pair (80, "h") below the root separators [40, 70].
Deleting the present key 80 then underflows that leaf; in borrow_if_needed
the binary-search insertion point of 80 among [40, 70] is idx = 2 =
keys.len, so keys.remove(idx) is out of bounds and the code panics. -/
theorem claim_C10 :
    (runTrace 3 20 panicPre initSt).1
      = [Except.ok (), Except.ok (), Except.ok (), Except.ok (), Except.ok (),
         Except.ok (), Except.ok (), Except.ok (), Except.ok (), Except.ok (),
         Except.ok (), Except.ok ()] ∧
    (delete 3 20 80 (runTrace 3 20 panicPre initSt).2).1
      = Except.error Error.Panic := by
  have h : runTrace 3 20 panicPre initSt
      = ([Except.ok (), Except.ok (), Except.ok (), Except.ok (), Except.ok (),
          Except.ok (), Except.ok (), Except.ok (), Except.ok (), Except.ok (),
          Except.ok (), Except.ok ()], ps12) := by
    simp only [panicPre, runTrace, ps_step1, ps_step2, ps_step3, ps_step4,
      ps_step5, ps_step6, ps_step7, ps_step8, ps_step9, ps_step10, ps_step11,
      ps_step12]
  rw [h]
  exact ⟨rfl, rfl⟩

set_option maxHeartbeats 1000000 in
/-- C8 counterexample: the repair step does not remove the separator between
the two merged children.  With b = 3, after sepPre the committed root (page
18) is internal with children [8, 19, 17] and keys [40, 70].  Deleting 60
underflows the middle child; borrow_if_needed merges children 0 and 1, whose
separating key is keys[0] = 40, but it removes keys[idx] with idx = 1 (the
insertion point of 60), i.e. the key 70.  The committed root afterwards
(page 20) has keys [40]: the separator between the merged children survives
and 70 is gone, refuting the claim at this input. -/
theorem claim_C8_counterexample :
    (runTrace 3 20 sepPre initSt).1
      = [Except.ok (), Except.ok (), Except.ok (), Except.ok (), Except.ok (),
         Except.ok (), Except.ok (), Except.ok (), Except.ok (), Except.ok (),
         Except.ok ()] ∧
    (runTrace 3 20 sepPre initSt).2.root = some 18 ∧
    (runTrace 3 20 sepPre initSt).2.pages.get? 18
      = some { node_type := NodeType.Internal [8, 19, 17] [40, 70]
               is_root := true
               parent_offset := none } ∧
    (delete 3 20 60 (runTrace 3 20 sepPre initSt).2).1 = Except.ok () ∧
    (delete 3 20 60 (runTrace 3 20 sepPre initSt).2).2.root = some 20 ∧
    (delete 3 20 60 (runTrace 3 20 sepPre initSt).2).2.pages.get? 20
      = some { node_type := NodeType.Internal [22, 17] [40]
               is_root := true
               parent_offset := none } := by
  have h : runTrace 3 20 sepPre initSt
      = ([Except.ok (), Except.ok (), Except.ok (), Except.ok (), Except.ok (),
          Except.ok (), Except.ok (), Except.ok (), Except.ok (), Except.ok (),
          Except.ok ()], qs11) := by
    simp only [sepPre, runTrace, ps_step1, ps_step2, ps_step3, ps_step4,
      ps_step5, ps_step6, ps_step7, ps_step8, ps_step9, ps_step10, qs_step11]
  rw [h]
  exact ⟨rfl, rfl, rfl, rfl, rfl, rfl⟩

set_option maxHeartbeats 1000000 in
/-- C6 counterexample: a completed delete that calls set_root twice.  With
b = 2, from the reachable state collapseSt (whose ghost trace is cleared),
deleting 20 completes with Ok but its trace contains two setRoot events: one
from the root-collapse branch of borrow_if_needed and one from the final
commit in delete. -/
theorem claim_C6_counterexample :
    (delete 2 20 20 collapseSt).1 = Except.ok () ∧
    srCount (delete 2 20 20 collapseSt).2.events = 2 := by
  have h6 : runTrace 2 20 collapsePre initSt
      = ([Except.ok (), Except.ok (), Except.ok (), Except.ok (), Except.ok (),
          Except.ok ()], c3s6) := by
    simp only [collapsePre, runTrace, c3_step1, c3_step2, c3_step3, c3_step4,
      c3_step5, c3_step6]
  have hc : collapseSt = { c3s6 with events := [] } := by
    rw [collapseSt, h6]
  rw [hc]
  exact ⟨rfl, rfl⟩

/-- The binary-search loop of slice::binary_search_by, run on a window that
contains the last index whose key is at most the target, returns exactly that
index, for key-monotone lists. -/
theorem bsLoop_exact {α : Type} (kf : α → Nat) (t : Nat) (xs : List α) (d : α)
    (hmono : ∀ i j (hi : i < xs.length) (hj : j < xs.length),
      i ≤ j → kf (xs.get ⟨i, hi⟩) ≤ kf (xs.get ⟨j, hj⟩))
    (l : Nat) (hllen : l < xs.length)
    (hlle : kf (xs.get ⟨l, hllen⟩) ≤ t)
    (hlmax : ∀ j (hj : j < xs.length), l < j → t < kf (xs.get ⟨j, hj⟩)) :
    ∀ n base size, 0 < size → base + size ≤ xs.length → size ≤ n →
      base ≤ l → l < base + size →
      bsLoop (fun e => compare (kf e) t) xs d n base size = l := by
  intro n
  induction n with
  | zero =>
    intro base size h1 _ h3 _ _
    omega
  | succ n ih =>
    intro base size h1 h2 h3 h4 h5
    by_cases hs : 1 < size
    · have hmid : base + size / 2 < xs.length := by omega
      simp only [bsLoop]
      rw [if_pos hs]
      rw [List.getD_eq_get _ _ hmid]
      by_cases hc : compare (kf (xs.get ⟨base + size / 2, hmid⟩)) t = Ordering.gt
      · rw [if_pos hc]
        have hprobe : t < kf (xs.get ⟨base + size / 2, hmid⟩) :=
          Nat.compare_eq_gt.mp hc
        have hlt : l < base + size / 2 := by
          by_contra hh
          have hge : base + size / 2 ≤ l := Nat.le_of_not_lt hh
          have := hmono (base + size / 2) l hmid hllen hge
          omega
        exact ih base (size - size / 2) (by omega) (by omega) (by omega) h4
          (by omega)
      · rw [if_neg hc]
        have hprobe : kf (xs.get ⟨base + size / 2, hmid⟩) ≤ t := by
          cases hp : compare (kf (xs.get ⟨base + size / 2, hmid⟩)) t with
          | gt => exact absurd hp hc
          | lt => exact Nat.le_of_lt (Nat.compare_eq_lt.mp hp)
          | eq => exact Nat.le_of_eq (Nat.compare_eq_eq.mp hp)
        have hge : base + size / 2 ≤ l := by
          by_contra hh
          have hlt2 : l < base + size / 2 := Nat.lt_of_not_le hh
          have := hlmax (base + size / 2) hmid hlt2
          omega
        exact ih (base + size / 2) (size - size / 2) (by omega) (by omega)
          (by omega) hge (by omega)
    · simp only [bsLoop]
      rw [if_neg hs]
      omega

/-- On a key-monotone list containing the target key, Rust binary_search_by
returns Ok at an index whose key equals the target. -/
theorem binary_search_found {α : Type} (kf : α → Nat) (t : Nat) (xs : List α)
    (hmono : ∀ i j (hi : i < xs.length) (hj : j < xs.length),
      i ≤ j → kf (xs.get ⟨i, hi⟩) ≤ kf (xs.get ⟨j, hj⟩))
    (i0 : Nat) (hi0 : i0 < xs.length) (hk : kf (xs.get ⟨i0, hi0⟩) = t) :
    ∃ r, ∃ hr : r < xs.length,
      binary_search_by (fun e => compare (kf e) t) xs = Except.ok r ∧
      kf (xs.get ⟨r, hr⟩) = t := by
  cases xs with
  | nil => cases hi0
  | cons x rest =>
    have hlen : 0 < (x :: rest).length := Nat.succ_pos _
    set G := Nat.findGreatest (fun j => kf ((x :: rest).getD j x) ≤ t)
      ((x :: rest).length - 1) with hGdef
    have hi0le : i0 ≤ (x :: rest).length - 1 := by omega
    have hPi0 : kf ((x :: rest).getD i0 x) ≤ t := by
      rw [List.getD_eq_get _ _ hi0]
      omega
    have hGP : kf ((x :: rest).getD G x) ≤ t := by
      rw [hGdef]
      exact @Nat.findGreatest_spec i0 (fun j => kf ((x :: rest).getD j x) ≤ t) _
        ((x :: rest).length - 1) hi0le hPi0
    have hGge : i0 ≤ G := by
      rw [hGdef]
      exact @Nat.le_findGreatest i0 (fun j => kf ((x :: rest).getD j x) ≤ t) _
        ((x :: rest).length - 1) hi0le hPi0
    have hGle : G ≤ (x :: rest).length - 1 := by
      rw [hGdef]
      exact @Nat.findGreatest_le (fun j => kf ((x :: rest).getD j x) ≤ t) _
        ((x :: rest).length - 1)
    have hGlt : G < (x :: rest).length := by omega
    have hGle2 : kf ((x :: rest).get ⟨G, hGlt⟩) ≤ t := by
      rw [← List.getD_eq_get (x :: rest) x hGlt]
      exact hGP
    have hGeq : kf ((x :: rest).get ⟨G, hGlt⟩) = t := by
      have h1 := hmono i0 G hi0 hGlt hGge
      omega
    have hGmax : ∀ j (hj : j < (x :: rest).length), G < j
        → t < kf ((x :: rest).get ⟨j, hj⟩) := by
      intro j hj hGj
      have hnP : ¬ kf ((x :: rest).getD j x) ≤ t := by
        rw [hGdef] at hGj
        exact @Nat.findGreatest_is_greatest j
          (fun i => kf ((x :: rest).getD i x) ≤ t) _
          ((x :: rest).length - 1) hGj (by omega)
      rw [List.getD_eq_get _ _ hj] at hnP
      omega
    have hloop := bsLoop_exact kf t (x :: rest) x hmono G hGlt hGle2 hGmax
      ((x :: rest).length) 0 ((x :: rest).length) hlen (by omega)
      (Nat.le_refl _) (Nat.zero_le _) (by omega)
    refine ⟨G, hGlt, ?_, hGeq⟩
    simp only [binary_search_by]
    rw [hloop]
    rw [List.getD_eq_get _ _ hGlt]
    rw [Nat.compare_eq_eq.mpr hGeq]

set_option maxHeartbeats 1000000 in
/-- C7: inserting a pair whose key is already present in a leaf with strictly
increasing keys succeeds and inserts a second pair at the binary-search
position, so the rewritten leaf holds two pairs with that key and its key
sequence is no longer strictly increasing. -/
theorem claim_C7 (b fuel : Nat) (pairs : List KeyValuePair) (ir : Bool)
    (po : Option Nat) (noff : Nat) (k : Key) (v : String) (s : St)
    (hsorted : List.Chain' (fun a c => a < c) (pairs.map KeyValuePair.key))
    (hmem : k ∈ pairs.map KeyValuePair.key)
    (hoff : noff < s.pages.length) :
    ∃ r, r < pairs.length ∧
      binary_search_by (fun p => KeyValuePair.cmp p { key := k, value := v })
        pairs = Except.ok r ∧
      (insert_non_full b (fuel + 1)
          { node_type := NodeType.Leaf pairs, is_root := ir, parent_offset := po }
          noff { key := k, value := v } s).1 = Except.ok () ∧
      (insert_non_full b (fuel + 1)
          { node_type := NodeType.Leaf pairs, is_root := ir, parent_offset := po }
          noff { key := k, value := v } s).2.pages.get? noff
        = some ({ node_type := NodeType.Leaf
                      (pairs.take r ++ { key := k, value := v } :: pairs.drop r),
                  is_root := ir, parent_offset := po }) ∧
      ((pairs.take r ++ { key := k, value := v } :: pairs.drop r).map
          KeyValuePair.key).count k = 2 ∧
      ¬ List.Chain' (fun a c => a < c)
        ((pairs.take r ++ { key := k, value := v } :: pairs.drop r).map
          KeyValuePair.key) := by
  have hpair : List.Pairwise (fun a c => a < c) (pairs.map KeyValuePair.key) :=
    List.chain'_iff_pairwise.mp hsorted
  have hpair2 : List.Pairwise (fun a c : KeyValuePair => a.key < c.key) pairs :=
    List.pairwise_map.mp hpair
  have hnodup : (pairs.map KeyValuePair.key).Nodup :=
    hpair.imp Nat.ne_of_lt
  have hmono : ∀ i j (hi : i < pairs.length) (hj : j < pairs.length),
      i ≤ j → KeyValuePair.key (pairs.get ⟨i, hi⟩)
        ≤ KeyValuePair.key (pairs.get ⟨j, hj⟩) := by
    intro i j hi hj hij
    rcases Nat.eq_or_lt_of_le hij with he | hlt
    · subst he
      exact Nat.le_refl _
    · exact Nat.le_of_lt (List.pairwise_iff_get.mp hpair2 ⟨i, hi⟩ ⟨j, hj⟩ hlt)
  obtain ⟨p0, hp0m, hp0k⟩ := List.mem_map.mp hmem
  obtain ⟨n0, hn0⟩ := List.get_of_mem hp0m
  have hk0 : KeyValuePair.key (pairs.get ⟨n0.1, n0.2⟩) = k := by
    rw [show (⟨n0.1, n0.2⟩ : Fin pairs.length) = n0 from rfl, hn0]
    exact hp0k
  obtain ⟨r, hr, hbs, hkey⟩ :=
    binary_search_found KeyValuePair.key k pairs hmono n0.1 n0.2 hk0
  have hfeq : (fun p => KeyValuePair.cmp p ({ key := k, value := v } : KeyValuePair))
      = (fun e => compare (KeyValuePair.key e) k) := rfl
  have hbs2 : binary_search_by
      (fun p => KeyValuePair.cmp p ({ key := k, value := v } : KeyValuePair)) pairs
      = Except.ok r := by
    rw [hfeq]
    exact hbs
  have hrle : r ≤ pairs.length := Nat.le_of_lt hr
  have hvi : vecInsert pairs r ({ key := k, value := v } : KeyValuePair)
      = Except.ok (pairs.take r ++ { key := k, value := v } :: pairs.drop r) := by
    unfold vecInsert
    rw [if_pos hrle]
  have hrun : insert_non_full b (fuel + 1)
      { node_type := NodeType.Leaf pairs, is_root := ir, parent_offset := po }
      noff { key := k, value := v } s
      = (Except.ok (), owSt s
          { node_type := NodeType.Leaf
              (pairs.take r ++ { key := k, value := v } :: pairs.drop r),
            is_root := ir, parent_offset := po } noff) := by
    simp only [insert_non_full]
    rw [hbs2]
    simp only [unwrapIdx]
    rw [hvi, liftE_bind_ok, wpao_app, if_pos hoff]
  refine ⟨r, hr, hbs2, ?_, ?_, ?_, ?_⟩
  · rw [hrun]
  · rw [hrun]
    show (s.pages.set noff _).get? noff = _
    rw [List.get?_set_eq]
    rw [List.get?_eq_get hoff]
    rfl
  · have hsplit : pairs.take r ++ pairs.drop r = pairs := List.take_append_drop r pairs
    have hcnt1 : ((pairs.take r ++ pairs.drop r).map KeyValuePair.key).count k = 1 := by
      rw [hsplit]
      exact List.count_eq_one_of_mem hnodup hmem
    rw [List.map_append, List.count_append] at hcnt1
    rw [List.map_append, List.map_cons, List.count_append]
    show _ + ((k : Key) :: (pairs.drop r).map KeyValuePair.key).count k = 2
    rw [List.count_cons_self]
    omega
  · intro hch
    have hlent : (pairs.take r).length = r := by
      rw [List.length_take]
      omega
    have hlen2 : r < ((pairs.take r ++ { key := k, value := v } :: pairs.drop r).map
        KeyValuePair.key).length - 1 := by
      rw [List.length_map, List.length_append, hlent, List.length_cons,
        List.length_drop]
      omega
    have hmlen : (((pairs.take r).map KeyValuePair.key)).length = r := by
      rw [List.length_map]
      exact hlent
    have hget1 : ((pairs.take r ++ { key := k, value := v } :: pairs.drop r).map
        KeyValuePair.key).get? r = some k := by
      rw [List.map_append, List.map_cons]
      rw [List.get?_append_right (by omega)]
      rw [hmlen]
      simp only [Nat.sub_self]
      rfl
    have hget2 : ((pairs.take r ++ { key := k, value := v } :: pairs.drop r).map
        KeyValuePair.key).get? (r + 1) = some k := by
      rw [List.map_append, List.map_cons]
      rw [List.get?_append_right (by omega)]
      rw [hmlen]
      have hd : r + 1 - r = 1 := by omega
      rw [hd]
      show ((pairs.drop r).map KeyValuePair.key).get? 0 = some k
      rw [List.get?_map]
      rw [List.get?_drop]
      have hr0 : r + 0 = r := by omega
      rw [hr0]
      rw [List.get?_eq_get hr]
      show some (KeyValuePair.key (pairs.get ⟨r, hr⟩)) = some k
      rw [hkey]
    have hgr := List.chain'_iff_get.mp hch r hlen2
    have he1 := List.get?_eq_get (by omega :
      r < ((pairs.take r ++ { key := k, value := v } :: pairs.drop r).map
        KeyValuePair.key).length)
    rw [hget1] at he1
    have he2 := List.get?_eq_get (by omega :
      r + 1 < ((pairs.take r ++ { key := k, value := v } :: pairs.drop r).map
        KeyValuePair.key).length)
    rw [hget2] at he2
    injection he1 with he1
    injection he2 with he2
    rw [← he1, ← he2] at hgr
    exact Nat.lt_irrefl k hgr

/-- Witness for C7: re-inserting key 5 into the leaf [(5, a)] at page 0 of the
freshly built store. -/
theorem claim_C7_witness :
    ∃ r, r < ([{ key := 5, value := "a" }] : List KeyValuePair).length ∧
      binary_search_by (fun p => KeyValuePair.cmp p { key := 5, value := "b" })
        [{ key := 5, value := "a" }] = Except.ok r ∧
      (insert_non_full 2 3
          { node_type := NodeType.Leaf [{ key := 5, value := "a" }],
            is_root := true, parent_offset := none }
          0 { key := 5, value := "b" } initSt).1 = Except.ok () ∧
      (insert_non_full 2 3
          { node_type := NodeType.Leaf [{ key := 5, value := "a" }],
            is_root := true, parent_offset := none }
          0 { key := 5, value := "b" } initSt).2.pages.get? 0
        = some ({ node_type := NodeType.Leaf
                      (([{ key := 5, value := "a" }] : List KeyValuePair).take r
                        ++ { key := 5, value := "b" }
                          :: ([{ key := 5, value := "a" }] : List KeyValuePair).drop r),
                  is_root := true, parent_offset := none }) ∧
      ((([{ key := 5, value := "a" }] : List KeyValuePair).take r
          ++ { key := 5, value := "b" }
            :: ([{ key := 5, value := "a" }] : List KeyValuePair).drop r).map
          KeyValuePair.key).count 5 = 2 ∧
      ¬ List.Chain' (fun a c => a < c)
        ((([{ key := 5, value := "a" }] : List KeyValuePair).take r
          ++ { key := 5, value := "b" }
            :: ([{ key := 5, value := "a" }] : List KeyValuePair).drop r).map
          KeyValuePair.key) :=
  claim_C7 2 2 [{ key := 5, value := "a" }] true none 0 5 "b" initSt
    (List.chain'_singleton _) (by decide) (by decide)


set_option maxHeartbeats 1600000 in
/-- C8 (amended): when a non-root node underflows, borrow_if_needed picks the
left sibling at index idx-1 unless idx = 0 (then the right sibling at index
1), where idx is the binary-search insertion point of the deleted key among
the parent's separator keys; it merges the node with the sibling (node first)
and appends the merged node at the end of the file, then rewrites the parent:
the two original child slots at m = min(idx, sibling_idx) and m+1 are
removed, the merged offset is inserted at m, and the key removed is the one
at index idx — which is the separator between the two merged children only
when idx = 0.  Stated for a root parent (so the repair stops after one step)
keeping more than two children. -/
theorem claim_C8 (b fuel : Nat) (node : Node) (key : Key) (s : St)
    (p : Nat) (children : List Nat) (keys : List Key) (ppo : Option Nat)
    (idx sidx m soff : Nat) (sibling merged : Node)
    (hidxdef : idx = unwrapIdx (binary_search_by (fun c => compare c key) keys))
    (hsdef : sidx = if idx > 0 then idx - 1 else idx + 1)
    (hmdef : m = min idx sidx)
    (huf : is_node_underflow b node = Except.ok true)
    (hpo : node.parent_offset = some p)
    (hgp : s.pages.get? p
      = some { node_type := NodeType.Internal children keys,
               is_root := true, parent_offset := ppo })
    (hcs : children.get? sidx = some soff)
    (hgs : s.pages.get? soff = some sibling)
    (hmg : merge node sibling = Except.ok merged)
    (hidx : idx < keys.length)
    (hm1 : m + 1 < children.length)
    (hlen : 2 < children.length) :
    (borrow_if_needed b (fuel + 2) node key s).1 = Except.ok () ∧
    (borrow_if_needed b (fuel + 2) node key s).2.pages.get? s.pages.length
      = some merged ∧
    (borrow_if_needed b (fuel + 2) node key s).2.pages.get? p
      = some ({ node_type := NodeType.Internal
                    (children.take m ++ s.pages.length :: children.drop (m + 2))
                    (keys.take idx ++ keys.drop (idx + 1)),
                is_root := true, parent_offset := ppo }) := by
  have hplt : p < s.pages.length := (List.get?_eq_some.mp hgp).1
  have hmlt : m < children.length := by omega
  have hmle : m ≤ children.length := by omega
  have hlent : (children.take m).length = m := by
    rw [List.length_take]
    exact Nat.min_eq_left hmle
  have hc1take : (children.take m ++ children.drop (m + 1)).take m
      = children.take m := by
    have h1 := List.take_left (children.take m) (children.drop (m + 1))
    rw [hlent] at h1
    exact h1
  have hc1drop : (children.take m ++ children.drop (m + 1)).drop (m + 1)
      = children.drop (m + 2) := by
    have h1 : (children.take m ++ children.drop (m + 1)).drop
        ((children.take m).length + 1) = (children.drop (m + 1)).drop 1 :=
      List.drop_append 1
    rw [hlent] at h1
    rw [h1, List.drop_drop]
  have hc2take : (children.take m ++ children.drop (m + 2)).take m
      = children.take m := by
    have h1 := List.take_left (children.take m) (children.drop (m + 2))
    rw [hlent] at h1
    exact h1
  have hc2drop : (children.take m ++ children.drop (m + 2)).drop m
      = children.drop (m + 2) := by
    have h1 := List.drop_left (children.take m) (children.drop (m + 2))
    rw [hlent] at h1
    exact h1
  have hvr1 : vecRemove children m
      = Except.ok (children.get ⟨m, hmlt⟩,
          children.take m ++ children.drop (m + 1)) := by
    unfold vecRemove
    rw [dif_pos hmlt]
  have hm2 : m < (children.take m ++ children.drop (m + 1)).length := by
    rw [List.length_append, hlent, List.length_drop]
    omega
  have hvr2 : vecRemove (children.take m ++ children.drop (m + 1)) m
      = Except.ok ((children.take m ++ children.drop (m + 1)).get ⟨m, hm2⟩,
          children.take m ++ children.drop (m + 2)) := by
    unfold vecRemove
    rw [dif_pos hm2, hc1take, hc1drop]
  have hxlen : (children.take m ++ children.drop (m + 2)).length
      = children.length - 2 := by
    rw [List.length_append, hlent, List.length_drop]
    omega
  have hxne : (children.take m ++ children.drop (m + 2)).isEmpty = false := by
    cases hxe : (children.take m ++ children.drop (m + 2)).isEmpty
    · rfl
    · exfalso
      rw [List.isEmpty_iff.mp hxe] at hxlen
      simp only [List.length_nil] at hxlen
      omega
  have hcol : ¬ ((true && (children.take m ++ children.drop (m + 2)).isEmpty)
      = true) := by
    rw [Bool.true_and, hxne]
    exact Bool.false_ne_true
  have hvr3 : vecRemove keys idx
      = Except.ok (keys.get ⟨idx, hidx⟩, keys.take idx ++ keys.drop (idx + 1)) := by
    unfold vecRemove
    rw [dif_pos hidx]
  have hvi4 : vecInsert (children.take m ++ children.drop (m + 2)) m
      s.pages.length
      = Except.ok (children.take m ++ s.pages.length :: children.drop (m + 2)) := by
    unfold vecInsert
    rw [if_pos (by rw [hxlen]; omega)]
    rw [hc2take, hc2drop]
  have hb1 : p < (wpSt s merged).pages.length := by
    show p < (s.pages ++ [merged]).length
    rw [List.length_append]
    omega
  have hufp : is_node_underflow b
      { node_type := NodeType.Internal
          (children.take m ++ s.pages.length :: children.drop (m + 2))
          (keys.take idx ++ keys.drop (idx + 1)),
        is_root := true, parent_offset := ppo } = Except.ok false := by
    simp only [is_node_underflow]
    rw [Bool.not_true, Bool.and_false]
  have hrun : borrow_if_needed b (fuel + 2) node key s
      = (Except.ok (), owSt (wpSt s merged)
          { node_type := NodeType.Internal
              (children.take m ++ s.pages.length :: children.drop (m + 2))
              (keys.take idx ++ keys.drop (idx + 1)),
            is_root := true, parent_offset := ppo } p) := by
    show borrow_if_needed b (fuel + 1 + 1) node key s = _
    simp only [borrow_if_needed]
    rw [huf, liftE_bind_ok, ite_app, if_pos rfl]
    rw [hpo, okOr_bind_some]
    rw [get_page_bind_some hgp]
    simp only []
    rw [← hidxdef, ← hsdef]
    rw [hcs, okOr_bind_some]
    rw [get_page_bind_some hgs]
    rw [hmg, liftE_bind_ok, write_page_bind]
    rw [← hmdef]
    rw [hvr1, liftE_bind_ok]
    simp only []
    rw [hvr2, liftE_bind_ok]
    simp only []
    rw [ite_app, if_neg hcol]
    rw [hvr3, liftE_bind_ok]
    simp only []
    rw [hvi4, liftE_bind_ok, wpao_bind, if_pos hb1]
    rw [hufp, liftE_bind_ok, ite_app, if_neg (by exact Bool.false_ne_true),
      pure_app]
  refine ⟨?_, ?_, ?_⟩
  · rw [hrun]
  · rw [hrun]
    show ((wpSt s merged).pages.set p _).get? s.pages.length = some merged
    rw [List.get?_set_ne _ _ (by omega)]
    show (s.pages ++ [merged]).get? s.pages.length = some merged
    exact List.get?_concat_length _ _
  · rw [hrun]
    show ((wpSt s merged).pages.set p _).get? p = some _
    rw [List.get?_set_eq]
    rw [List.get?_eq_get hb1]
    rfl

/-- Witness for C8 at a concrete configuration: an empty non-root leaf under
a root parent with three children and keys [10, 20], repaired after deleting
key 5 (idx = 0, right sibling at index 1). -/
theorem claim_C8_witness :
    (borrow_if_needed 2 (0 + 2)
        { node_type := NodeType.Leaf [], is_root := false, parent_offset := some 0 }
        5
        { pages := [{ node_type := NodeType.Internal [7, 1, 9] [10, 20],
                      is_root := true, parent_offset := none },
                    { node_type := NodeType.Leaf [], is_root := false,
                      parent_offset := some 0 }],
          root := some 0, events := [] }).1 = Except.ok () ∧
    (borrow_if_needed 2 (0 + 2)
        { node_type := NodeType.Leaf [], is_root := false, parent_offset := some 0 }
        5
        { pages := [{ node_type := NodeType.Internal [7, 1, 9] [10, 20],
                      is_root := true, parent_offset := none },
                    { node_type := NodeType.Leaf [], is_root := false,
                      parent_offset := some 0 }],
          root := some 0, events := [] }).2.pages.get? 2
      = some ({ node_type := NodeType.Leaf [], is_root := false,
                parent_offset := some 0 }) ∧
    (borrow_if_needed 2 (0 + 2)
        { node_type := NodeType.Leaf [], is_root := false, parent_offset := some 0 }
        5
        { pages := [{ node_type := NodeType.Internal [7, 1, 9] [10, 20],
                      is_root := true, parent_offset := none },
                    { node_type := NodeType.Leaf [], is_root := false,
                      parent_offset := some 0 }],
          root := some 0, events := [] }).2.pages.get? 0
      = some ({ node_type := NodeType.Internal [2, 9] [20],
                is_root := true, parent_offset := none }) :=
  claim_C8 2 0
    { node_type := NodeType.Leaf [], is_root := false, parent_offset := some 0 }
    5
    { pages := [{ node_type := NodeType.Internal [7, 1, 9] [10, 20],
                  is_root := true, parent_offset := none },
                { node_type := NodeType.Leaf [], is_root := false,
                  parent_offset := some 0 }],
      root := some 0, events := [] }
    0 [7, 1, 9] [10, 20] none 0 1 0 1
    { node_type := NodeType.Leaf [], is_root := false, parent_offset := some 0 }
    { node_type := NodeType.Leaf [], is_root := false, parent_offset := some 0 }
    rfl rfl rfl rfl rfl rfl rfl rfl rfl (by decide) (by decide) (by decide)


end BTreeSpec
